import Mathlib

/-!
Verification development for the AdvancedRules flow engine, distributed step
executor and observability collector. Each Python function named below is
embedded as an executable Lean definition translated from the source file
indicated in its doc comment; theorems at the end of the file settle the
specification claims against these definitions.

Modelling conventions:
* machine state (Redis key-value store, metric emissions) is passed
  explicitly; absolute time is a `Nat` of seconds;
* the opaque step body (a subprocess invocation) is a parameter giving each
  attempt's outcome (exit code / timeout / raised exception);
* wall-clock durations and latency measurements are elided (real time);
* the external BLAKE2b digests are abstract function parameters.
-/

namespace AdvancedRules

/-! ## Observability collector (`src/observability/collector.py`) -/

/-- Characters accepted by the sanitization regex `[^a-zA-Z0-9_\-./]`
(`_ALLOWED` in `observability/collector.py`): a character is *allowed* iff
the regex does not replace it. -/
def allowedChar (c : Char) : Bool :=
  ('a' ≤ c && c ≤ 'z') || ('A' ≤ c && c ≤ 'Z') || ('0' ≤ c && c ≤ '9') ||
    c == '_' || c == '-' || c == '.' || c == '/'

/-- `MAXLEN` from `observability/collector.py`. -/
def MAXLEN : Nat := 64

/-- `_san` from `observability/collector.py`: `None` becomes `"unknown"`;
otherwise disallowed characters are replaced by `_`, the string is truncated
to `MAXLEN` characters, and an empty result becomes `"unknown"`.
Input is modelled as `Option String` (`None` or a string; `str(v)` on a
string is the identity). -/
def _san (v : Option String) : String :=
  match v with
  | none => "unknown"
  | some s =>
    let t := String.mk ((s.data.map (fun c => if allowedChar c then c else '_')).take MAXLEN)
    if t = "" then "unknown" else t

/-! ## Supporting string operations -/

/-- Python's substring test `needle in hay` on strings. -/
def strContains (hay needle : String) : Bool :=
  decide (needle.data <:+: hay.data)

/-! ## Flow runner data model (`src/tools/flow/flow_runner.py`) -/

/-- `ExecutionStatus` enum from `flow_runner.py`. -/
inductive ExecutionStatus
  | pending | running | success | failed | retrying | skipped | timeout
deriving DecidableEq, Repr

/-- The `.value` string of an `ExecutionStatus` member. -/
def ExecutionStatus.value : ExecutionStatus → String
  | .pending => "pending"
  | .running => "running"
  | .success => "success"
  | .failed => "failed"
  | .retrying => "retrying"
  | .skipped => "skipped"
  | .timeout => "timeout"

/-- `ExecutionResult` dataclass from `flow_runner.py`.  The wall-clock
`duration` field and the write-only `envelope_v2` field are elided (real
time / unconsumed output). -/
structure ExecutionResult where
  node_id : String
  status : ExecutionStatus
  exit_code : Option Int := none
  stdout : String := ""
  stderr : String := ""
  attempts : Nat := 1
  error_message : Option String := none
deriving DecidableEq, Repr

/-- A node definition (`node_def` dict): the fields read by the runner, with
the defaults the runner applies via `.get`. -/
structure NodeDef where
  command : String
  retries : Nat := 0
  retry_delay : Nat := 30
  timeout : Nat := 300
  success_condition : Option String := none
  model : String := "unknown"
deriving DecidableEq, Repr

/-- An edge of a flow definition (`from` / `to` / optional `when`). -/
structure EdgeDef where
  from_ : String
  to_ : String
  when_ : Option String := none
deriving DecidableEq, Repr

/-- A flow definition: the fields of the registry entry read by the runner.
`fail_fast` models `flow_def.get("config", {}).get("fail_fast", True)`. -/
structure FlowDef where
  nodes : List (String × NodeDef)
  edges : List EdgeDef
  guards : List String := []
  fail_fast : Bool := true
deriving DecidableEq, Repr

/-- One emission to the metrics facade `tools/instrumentation.py` (which
forwards to `observability/collector.py`).  `step` is the latency
observation made when the `instr.step` timing scope exits. -/
inductive MetricEvent
  | flowStart (flow_id persona exec_mode branch : String)
  | flowEnd (flow_id persona exec_mode branch : String) (success : Bool) (reason : String)
  | step (flow_id step_id persona model exec_mode : String)
  | retry (flow_id step_id persona : String)
deriving DecidableEq, Repr

/-- Outcome of one live invocation of the opaque step body
(`subprocess.run` in `_execute_node_once`): the process completed with an
exit code and captured output, or `subprocess.TimeoutExpired` was raised, or
some other exception was raised during the attempt. -/
inductive AttemptOutcome
  | completed (exit_code : Int) (stdout stderr : String)
  | timedOut
  | raised (msg : String)
deriving DecidableEq, Repr

/-- `_substitute_parameters` from `flow_runner.py`: literal replacement of
each `\x7b\x7bkey\x7d\x7d` with the parameter's value. -/
def _substitute_parameters (command : String) (params : List (String × String)) : String :=
  params.foldl (fun cmd kv => cmd.replace ("\x7b\x7b" ++ kv.1 ++ "\x7d\x7d") kv.2) command

/-! ### The `contains('LITERAL')` pattern of `_check_success_condition`

`_check_success_condition` extracts the literal with
`re.search(r"contains\(['\"](.+?)['\"]\)", success_condition)`: the literal
text `contains(`, one quote character, a lazy non-empty run of
non-newline characters, one quote character, then `)`.  `containsSearch`
models this search: leftmost start position, shortest (lazy) group. -/

/-- A character matched by the regex class `['\"]`. -/
def isQuote (c : Char) : Bool := c == '\'' || c == '"'

/-- Drop an expected literal from the front of a character list; `none` if
the list does not start with it. -/
def dropLiteral : List Char → List Char → Option (List Char)
  | [], l => some l
  | _ :: _, [] => none
  | p :: ps, c :: cs => if p == c then dropLiteral ps cs else none

/-- Lazy match of `(.+?)['\"]\)`: accumulate body characters (each matched
by `.`, hence not a newline) and stop at the earliest point where a quote
followed by `)` completes the pattern with a non-empty group. -/
def lazyBody : List Char → List Char → Option (List Char)
  | _, [] => none
  | acc, c1 :: rest =>
    match rest with
    | [] => none
    | c2 :: _ =>
      if acc ≠ [] && isQuote c1 && c2 == ')' then some acc.reverse
      else if c1 == '\n' then none
      else lazyBody (c1 :: acc) rest

/-- Attempt the full `contains\(['\"](.+?)['\"]\)` pattern anchored at the
head of the list. -/
def containsMatchAt (l : List Char) : Option (List Char) :=
  match dropLiteral "contains(".data l with
  | some (q :: rest) => if isQuote q then lazyBody [] rest else none
  | some [] => none
  | none => none

/-- `re.search`: try each start position from the left. -/
def containsSearch : List Char → Option (List Char)
  | [] => none
  | c :: rest =>
    match containsMatchAt (c :: rest) with
    | some lit => some lit
    | none => containsSearch rest

/-- `_check_success_condition` from `flow_runner.py`: no condition defaults
to `exit_code == 0`; the three recognized substring patterns; anything else
falls back to `exit_code == 0`. -/
def _check_success_condition (result : ExecutionResult) (nd : NodeDef) : Bool :=
  match nd.success_condition with
  | none => result.exit_code == some 0
  | some sc =>
    if strContains sc "exit_code == 0" then result.exit_code == some 0
    else if strContains sc "exit_code == 1" then result.exit_code == some 1
    else if strContains sc "contains" then
      match containsSearch sc.data with
      | some lit => strContains result.stdout (String.mk lit)
      | none => result.exit_code == some 0
    else result.exit_code == some 0

/-! ## Node execution with retries (`_execute_node`, `_execute_node_once`) -/

/-- `_execute_node_once` from `flow_runner.py`.  One attempt: in dry-run
mode a success result is fabricated; live mode consults the opaque body's
outcome for this attempt.  The returned event is the latency observation of
the `instr.step` scope wrapping the attempt (emitted also when the body
raises, since the scope's exit runs first).  An exception becomes
`Except.error` with the exception text.  `persona` is
`context["parameters"].get("persona", "CODER_AI")`, computed by the caller. -/
def _execute_node_once (flow_id node_id : String) (nd : NodeDef) (persona : String)
    (params : List (String × String)) (dry_run : Bool) (outcome : AttemptOutcome) :
    Except String ExecutionResult × List MetricEvent :=
  let exec_mode := if dry_run then "dry_run" else "live"
  let command := _substitute_parameters nd.command params
  let ev := MetricEvent.step flow_id node_id persona nd.model exec_mode
  if dry_run then
    (.ok { node_id := node_id, status := .success, exit_code := some 0,
           stdout := "DRY_RUN: " ++ command }, [ev])
  else
    match outcome with
    | .completed ec out err =>
      (.ok { node_id := node_id, status := if ec == 0 then .success else .failed,
             exit_code := some ec, stdout := out, stderr := err }, [ev])
    | .timedOut =>
      (.ok { node_id := node_id, status := .timeout,
             error_message := some ("Command timed out after " ++ toString nd.timeout ++ "s") },
       [ev])
    | .raised msg => (.error msg, [ev])

/-- The `while attempt <= max_retries + 1` loop of `_execute_node`.
State: current `attempt`, remaining loop `fuel` (the loop runs at most
`max_retries + 1` iterations), the `last_result` seen, and the metric events
emitted so far.  `body` gives the opaque outcome of each attempt. -/
def _execute_node_loop (flow_id node_id : String) (nd : NodeDef) (persona : String)
    (params : List (String × String)) (dry_run : Bool) (body : Nat → AttemptOutcome)
    (max_retries : Nat) :
    Nat → Nat → Option ExecutionResult → List MetricEvent → ExecutionResult × List MetricEvent
  | attempt, 0, last, events =>
    (match last with
     | some r => { r with attempts := attempt }
     | none => { node_id := node_id, status := .failed,
                 error_message := some "Node execution failed after all retries" },
     events)
  | attempt, fuel + 1, last, events =>
    match _execute_node_once flow_id node_id nd persona params dry_run (body attempt) with
    | (.ok result, evs) =>
      if _check_success_condition result nd then
        ({ result with status := .success, attempts := attempt }, events ++ evs)
      else
        let failed := { result with status := ExecutionStatus.failed }
        if attempt ≤ max_retries then
          _execute_node_loop flow_id node_id nd persona params dry_run body max_retries
            (attempt + 1) fuel (some failed)
            (events ++ evs ++ [MetricEvent.retry flow_id node_id persona])
        else
          ({ failed with attempts := attempt }, events ++ evs)
    | (.error msg, evs) =>
      let r : ExecutionResult :=
        { node_id := node_id, status := .failed,
          attempts := attempt, error_message := some msg }
      if attempt ≤ max_retries then
        _execute_node_loop flow_id node_id nd persona params dry_run body max_retries
          (attempt + 1) fuel (some r)
          (events ++ evs ++ [MetricEvent.retry flow_id node_id persona])
      else
        (r, events ++ evs)

/-- `_execute_node` from `flow_runner.py`: retry loop starting at attempt 1,
`max_retries = node_def.get("retries", 0)`.  Returns the terminal
`ExecutionResult` and, in order, the metric events (one `step` observation
per attempt, one `retry` counter per unsuccessful attempt that still has a
retry remaining).  The `retry_delay` sleep is elided (real time). -/
def _execute_node (flow_id node_id : String) (nd : NodeDef) (persona : String)
    (params : List (String × String)) (dry_run : Bool) (body : Nat → AttemptOutcome) :
    ExecutionResult × List MetricEvent :=
  _execute_node_loop flow_id node_id nd persona params dry_run body nd.retries
    1 (nd.retries + 1) none []

/-! ## DAG construction and execution (`_build_execution_dag`, `_execute_dag`) -/

/-- `networkx.DiGraph.add_node`: append if not already present. -/
def addNode (ns : List String) (n : String) : List String :=
  if ns.contains n then ns else ns ++ [n]

/-- The node set of the execution DAG in insertion order: the flow's node
ids first (`dag.add_node`), then any edge endpoints not yet present
(`dag.add_edge` creates missing endpoints). -/
def dagNodesList (flow : FlowDef) : List String :=
  let base := flow.nodes.foldl (fun ns p => addNode ns p.1) []
  flow.edges.foldl (fun ns e => addNode (addNode ns e.from_) e.to_) base

/-- `dag.add_edge f t condition=w`: a repeated `(f, t)` edge overwrites the
stored `condition` attribute. -/
def addEdge (es : List (String × String × Option String)) (f t : String) (w : Option String) :
    List (String × String × Option String) :=
  if es.any (fun e => e.1 == f && e.2.1 == t) then
    es.map (fun e => if e.1 == f && e.2.1 == t then (f, t, w) else e)
  else es ++ [(f, t, w)]

/-- The edge set of the execution DAG built by `_build_execution_dag`
(each `EdgeDef` carries both `from` and `to`, so every edge is added). -/
def dagEdgesList (flow : FlowDef) : List (String × String × Option String) :=
  flow.edges.foldl (fun es e => addEdge es e.from_ e.to_ e.when_) []

/-- `dag.predecessors node_id` over the built edge list. -/
def predecessors (es : List (String × String × Option String)) (n : String) : List String :=
  (es.filter (fun e => e.2.1 == n)).map (fun e => e.1)

/-- The `condition` attribute stored on edge `(p, n)` (always present on an
existing edge, possibly `None`). -/
def edgeCondition (es : List (String × String × Option String)) (p n : String) : Option String :=
  match es.find? (fun e => e.1 == p && e.2.1 == n) with
  | some e => e.2.2
  | none => none

/-- `_evaluate_condition` from `flow_runner.py`.  A `None` condition raises
`TypeError` inside the `try`, which the bare `except` swallows, returning
the default `True`.  Only the `{node}.success` pattern is interpreted; a
referenced node absent from `results`, or any other expression, defaults to
`True`. -/
def _evaluate_condition (cond : Option String) (results : List (String × ExecutionResult)) :
    Bool :=
  match cond with
  | none => true
  | some c =>
    if strContains c ".success" then
      match List.lookup ((c.splitOn ".").headD "") results with
      | some r => r.status == .success
      | none => true
    else true

/-- `_check_predecessor_success` from `flow_runner.py`: every predecessor
already present in `results` must have status `success` and its edge's
`condition` must evaluate true; predecessors absent from `results` are not
checked. -/
def _check_predecessor_success (es : List (String × String × Option String)) (node_id : String)
    (results : List (String × ExecutionResult)) : Bool :=
  (predecessors es node_id).all fun p =>
    match List.lookup p results with
    | none => true
    | some r =>
      r.status == ExecutionStatus.success &&
        _evaluate_condition (edgeCondition es p node_id) results

/-- Kahn's algorithm, repeatedly removing the first remaining node with no
incoming edge from a remaining node; `none` on a cycle.  Models
`networkx.topological_sort` (deterministic order; the claims below do not
depend on the tie-breaking order among ready nodes). -/
def topoSortAux (edges : List (String × String)) :
    Nat → List String → List String → Option (List String)
  | 0, remaining, acc => if remaining = [] then some acc.reverse else none
  | fuel + 1, remaining, acc =>
    if remaining = [] then some acc.reverse
    else
      match remaining.find?
          (fun n => !(edges.any (fun e => e.2 == n && remaining.contains e.1))) with
      | none => none
      | some n => topoSortAux edges fuel (remaining.erase n) (n :: acc)

def topologicalSort (nodes : List String) (edges : List (String × String)) :
    Option (List String) :=
  topoSortAux edges nodes.length nodes []

/-- Result of `_execute_dag`: accumulated node results (insertion order),
metric events, and the name of a raised exception if the loop aborted
(`KeyError` when a DAG node has no definition in `flow_def["nodes"]`). -/
structure DagRun where
  results : List (String × ExecutionResult)
  events : List MetricEvent
  error : Option String
deriving DecidableEq, Repr

/-- The per-node loop of `_execute_dag`: skip when predecessors failed,
else execute with retries; stop after a failed node when `fail_fast`.
The append-only `execution_log` is elided (timestamps). -/
def _execute_dag_loop (flow : FlowDef) (es : List (String × String × Option String))
    (flow_id persona : String) (params : List (String × String)) (dry_run : Bool)
    (body : String → Nat → AttemptOutcome) :
    List String → List (String × ExecutionResult) → List MetricEvent → DagRun
  | [], results, events => ⟨results, events, none⟩
  | n :: rest, results, events =>
    if ¬ _check_predecessor_success es n results then
      _execute_dag_loop flow es flow_id persona params dry_run body rest
        (results ++
          [(n, { node_id := n, status := .skipped,
                 error_message := some "Predecessor failed" })])
        events
    else
      match List.lookup n flow.nodes with
      | none => ⟨results, events, some "KeyError"⟩
      | some nd =>
        let step := _execute_node flow_id n nd persona params dry_run (body n)
        let results := results ++ [(n, step.1)]
        let events := events ++ step.2
        if step.1.status == ExecutionStatus.failed && flow.fail_fast then
          ⟨results, events, none⟩
        else
          _execute_dag_loop flow es flow_id persona params dry_run body rest results events

/-! ## Summary, guards and `execute_flow` -/

/-- The per-node projection in the summary's `node_results`
(`duration` elided). -/
structure NodeProjection where
  status : String
  attempts : Nat
  exit_code : Option Int
deriving DecidableEq, Repr

/-- `_generate_execution_summary` from `flow_runner.py` (`execution_time`,
`duration` and `execution_log` elided: wall-clock values). -/
structure Summary where
  flow_id : String
  total_nodes : Nat
  successful_nodes : Nat
  failed_nodes : Nat
  success_rate : ℚ
  dry_run : Bool
  node_results : List (String × NodeProjection)
deriving DecidableEq, Repr

def _generate_execution_summary (flow_id : String)
    (results : List (String × ExecutionResult)) (dry_run : Bool) : Summary :=
  let total := results.length
  let nsucc := (results.filter (fun p => p.2.status == ExecutionStatus.success)).length
  let nfail := (results.filter (fun p => p.2.status == ExecutionStatus.failed)).length
  { flow_id := flow_id, total_nodes := total, successful_nodes := nsucc,
    failed_nodes := nfail,
    success_rate := if total > 0 then (nsucc : ℚ) / (total : ℚ) else 0,
    dry_run := dry_run,
    node_results := results.map
      (fun p => (p.1, ⟨p.2.status.value, p.2.attempts, p.2.exit_code⟩)) }

/-- The keys of `_load_guard_functions` in `flow_runner.py`. -/
def guardNames : List String :=
  ["branch_not_main", "dry_run_unless_allowed", "artifacts_present",
   "git_clean", "ci_environment", "test_framework_available"]

/-- `_execute_flow_guards` from `flow_runner.py`: an unknown guard name, a
guard raising, or a guard returning `False` fails the whole check.  The
environment-dependent guard predicates (git state, env vars, file system)
are modelled by `genv`, giving each guard's outcome (`Except.error` for a
raised exception). -/
def _execute_flow_guards (genv : String → Except String Bool) (guards : List String) : Bool :=
  guards.all fun g =>
    guardNames.contains g &&
      (match genv g with
       | .ok b => b
       | .error _ => false)

/-- `execute_flow` from `flow_runner.py`.  Returns the raised exception's
class name (`Except.error`) or the summary, together with the metric events
in emission order.  Unknown `flow_id` raises `ValueError` before
`flow_start` is emitted; a failed guard check raises
`ValueError("Flow guards failed - execution blocked")`, caught at the
bottom and recorded as `flow_end(..., success=False, reason="ValueError")`;
a cyclic DAG raises `networkx`'s `NetworkXUnfeasible` out of
`list(nx.topological_sort(dag))` (not a `NetworkXError`, so not converted
to `ValueError`). -/
def execute_flow (flows : List (String × FlowDef)) (flow_id : String)
    (params : List (String × String)) (dry_run : Bool) (branch : String)
    (genv : String → Except String Bool) (body : String → Nat → AttemptOutcome) :
    Except String Summary × List MetricEvent :=
  match List.lookup flow_id flows with
  | none => (.error "ValueError", [])
  | some flow =>
    let exec_mode := if dry_run then "dry_run" else "live"
    let persona := (List.lookup "persona" params).getD "CODER_AI"
    let startEv := MetricEvent.flowStart flow_id persona exec_mode branch
    let failEnd := fun (reason : String) =>
      MetricEvent.flowEnd flow_id persona exec_mode branch false reason
    if ¬ _execute_flow_guards genv flow.guards then
      (.error "ValueError", [startEv, failEnd "ValueError"])
    else
      match topologicalSort (dagNodesList flow)
          ((dagEdgesList flow).map (fun e => (e.1, e.2.1))) with
      | none => (.error "NetworkXUnfeasible", [startEv, failEnd "NetworkXUnfeasible"])
      | some order =>
        let run := _execute_dag_loop flow (dagEdgesList flow) flow_id persona params
          dry_run body order [] []
        match run.error with
        | some exc => (.error exc, [startEv] ++ run.events ++ [failEnd exc])
        | none =>
          let summary := _generate_execution_summary flow_id run.results dry_run
          (.ok summary, [startEv] ++ run.events ++
            [MetricEvent.flowEnd flow_id persona exec_mode branch true "ok"])

/-! ## Distributed step executor (`src/exec_queue/tasks.py`)

The Redis store is modelled with the two disjoint key families the module
uses: idempotency keys (string value, always set with a TTL) and rate
counters (integer value, TTL attached on first increment).  `now` is the
absolute time in seconds; an entry is live iff its expiry (when present) is
strictly in the future. -/

structure KVState where
  idemp : List (String × String × Nat)
  rate : List (String × Nat × Option Nat)
deriving DecidableEq, Repr

/-- The live idempotency entry under `k` at time `t`, as `(value, expiry)`. -/
def idempAlive (st : KVState) (k : String) (t : Nat) : Option (String × Nat) :=
  match st.idemp.find? (fun e => e.1 == k) with
  | some e => if t < e.2.2 then some e.2 else none
  | none => none

/-- `r.set(key, v, ex=ttl)`: unconditional write with fresh TTL. -/
def setKey (st : KVState) (k v : String) (ttl t : Nat) : KVState :=
  { st with idemp := (st.idemp.filter (fun e => !(e.1 == k))) ++ [(k, v, t + ttl)] }

/-- `r.set(key, v, nx=True, ex=ttl)`: succeeds iff no live entry exists. -/
def setNX (st : KVState) (k v : String) (ttl t : Nat) : Bool × KVState :=
  match idempAlive st k t with
  | some _ => (false, st)
  | none => (true, setKey st k v ttl t)

/-- The live rate-counter entry under `k` at time `t`. -/
def rateAlive (st : KVState) (k : String) (t : Nat) : Option (Nat × Option Nat) :=
  match st.rate.find? (fun e => e.1 == k) with
  | some e =>
    match e.2.2 with
    | some ex => if t < ex then some e.2 else none
    | none => some e.2
  | none => none

/-- `r.incr(key, 1)`: increment a live counter keeping its TTL, or create
it at 1 with no TTL. -/
def incr (st : KVState) (k : String) (t : Nat) : Nat × KVState :=
  match rateAlive st k t with
  | some c =>
    (c.1 + 1,
     { st with rate := (st.rate.filter (fun x => !(x.1 == k))) ++ [(k, c.1 + 1, c.2)] })
  | none =>
    (1, { st with rate := (st.rate.filter (fun x => !(x.1 == k))) ++ [(k, 1, none)] })

/-- `r.expire(key, ttl)`: attach a fresh TTL to an existing key. -/
def expireKey (st : KVState) (k : String) (ttl t : Nat) : KVState :=
  { st with rate := st.rate.map (fun x => if x.1 == k then (x.1, x.2.1, some (t + ttl)) else x) }

/-- `RATE_LIMITS` from `tasks.py`: per-persona `(N, window_seconds)`. -/
def RATE_LIMITS : List (String × Nat × Nat) :=
  [("CODER_AI", (30, 60)), ("AUDITOR_AI", (10, 60)), ("PO_AI", (6, 60))]

/-- `_rate_limited` from `tasks.py`, parameterized by the limits table (the
module-level `RATE_LIMITS` dict is configuration data; unknown personas
default to `(20, 60)`).  Fixed window: the key embeds
`int(time.time() // window)`. -/
def _rate_limited (limits : List (String × Nat × Nat)) (st : KVState) (persona : String)
    (t : Nat) : Bool × KVState :=
  let nw := (List.lookup persona limits).getD (20, 60)
  let key := "arx:rl:" ++ persona ++ ":" ++ toString (t / nw.2)
  let vst := incr st key t
  let st2 := if vst.1 == 1 then expireKey vst.2 key nw.2 t else vst.2
  (decide (vst.1 > nw.1), st2)

/-- `_payload_hash` from `tasks.py`: BLAKE2b (16-byte digest, abstracted as
`h16`) of the first 4096 characters of the canonical JSON encoding of the
payload; the payload is modelled by that canonical encoding
(`json.dumps(payload, sort_keys=True)`). -/
def _payload_hash (h16 : String → String) (payload_json : String) : String :=
  h16 (payload_json.take 4096)

/-- `_idempotency_key` from `tasks.py`: BLAKE2b (12-byte digest, abstracted
as `h12`) over `flow:task:step:payload_hash`, prefixed `arx:idemp:`. -/
def _idempotency_key (h12 : String → String)
    (flow_id task_id step_id payload_hash : String) : String :=
  "arx:idemp:" ++ h12 (flow_id ++ ":" ++ task_id ++ ":" ++ step_id ++ ":" ++ payload_hash)

/-- How one delivery of the `execute_step` Celery task terminates. -/
inductive StepOutcome
  /-- `raise self.retry(countdown=5)`: the task re-enqueues itself. -/
  | deferred
  /-- duplicate: state set to `IGNORED`, `raise Ignore()`, body not run. -/
  | ignored
  /-- `PermissionError` from the live-write guards (before the body). -/
  | permissionDenied
  /-- body ran and returned the success dict. -/
  | bodyOk
  /-- body raised; the exception is re-raised for Celery autoretry. -/
  | bodyRaised (exc : String)
deriving DecidableEq, Repr

/-- `execute_step` from `tasks.py`, one delivery at time `t`.  In source
order: rate check (defer on exceed), idempotency `SET NX EX 86400` (ignore
on failure — this happens before the `try`, so the `finally` does not run
for duplicates), live-write guards (`_assert_writes_ok`, then the
`allow_destructive` double guard — also before the `try`, so a denied task
leaves the key at `"running"`), then `flow_start`, the body inside the
`instr.step` timing scope, `flow_end`, and in the `finally` the overwrite of
the key to `"done"` with a fresh 24h TTL.  The simulated body
(`random.random() < 0.03` raising `RuntimeError("simulated_step_error")`)
is modelled by `bodyFails`; its sub-second sleep does not advance `t`. -/
def execute_step (h12 h16 : String → String) (limits : List (String × Nat × Nat))
    (allow_writes_env : Bool) (st : KVState) (t : Nat)
    (flow_id task_id step_id persona exec_mode branch model : String)
    (payload_json : String) (allow_destructive : Bool) (bodyFails : Bool) :
    StepOutcome × KVState × List MetricEvent :=
  let rl := _rate_limited limits st persona t
  if rl.1 then (.deferred, rl.2, [])
  else
    let ph := _payload_hash h16 payload_json
    let key := _idempotency_key h12 flow_id task_id step_id ph
    let claim := setNX rl.2 key "running" 86400 t
    if !claim.1 then (.ignored, claim.2, [])
    else if exec_mode == "live" && !allow_writes_env then (.permissionDenied, claim.2, [])
    else if !allow_destructive && exec_mode == "live" then (.permissionDenied, claim.2, [])
    else
      let evStart := MetricEvent.flowStart flow_id persona exec_mode branch
      let evStep := MetricEvent.step flow_id step_id persona model exec_mode
      let done := setKey claim.2 key "done" 86400 t
      if bodyFails then
        (.bodyRaised "RuntimeError", done,
         [evStart, evStep, MetricEvent.retry flow_id step_id persona,
          MetricEvent.flowEnd flow_id persona exec_mode branch false "RuntimeError"])
      else
        (.bodyOk, done,
         [evStart, evStep, MetricEvent.flowEnd flow_id persona exec_mode branch true "ok"])

/-! ## Flow linter (`src/tools/flow/flow_linter.py`) -/

/-- A lint finding (`ValidationError` dataclass in `flow_linter.py`). -/
structure ValidationError where
  level : String
  code : String
  message : String
  file_path : String
deriving DecidableEq, Repr

/-- `_validate_dag_structure` from `flow_linter.py`: build the directed
graph from the flow's nodes and edges; if acyclic, require at least one
root (in-degree 0) and otherwise report `NO_ROOT_NODES` at level `ERROR`;
if cyclic, report `CYCLIC_DEPENDENCY` (the representative cycle list in its
message is elided).  Acyclicity is decided by the Kahn sort used above. -/
def _validate_dag_structure (nodes : List String) (edges : List (String × String))
    (flow_id file_path : String) : List ValidationError :=
  let g_nodes := edges.foldl (fun ns e => addNode (addNode ns e.1) e.2)
    (nodes.foldl addNode [])
  match topologicalSort g_nodes edges with
  | some _ =>
    let root_nodes := g_nodes.filter (fun n => !(edges.any (fun e => e.2 == n)))
    if root_nodes = [] then
      [⟨"ERROR", "NO_ROOT_NODES",
        "Flow '" ++ flow_id ++ "' has no root nodes (nodes with no incoming edges)",
        file_path⟩]
    else []
  | none =>
    [⟨"ERROR", "CYCLIC_DEPENDENCY", "Flow '" ++ flow_id ++ "' contains cycles", file_path⟩]

/-! ## Helper observations used by the theorems -/

/-- Is an event a `step_retries_total` increment? -/
def isRetryEvent : MetricEvent → Bool
  | .retry _ _ _ => true
  | _ => false

/-- Is an event a step-latency observation (a body execution)? -/
def isStepEvent : MetricEvent → Bool
  | .step _ _ _ _ _ => true
  | _ => false

/-- The successive return values of `_rate_limited` over a sequence of
calls at the given times (threading the store). -/
def rateOutcomes (limits : List (String × Nat × Nat)) (persona : String) :
    KVState → List Nat → List Bool
  | _, [] => []
  | st, t :: ts =>
    let r := _rate_limited limits st persona t
    r.1 :: rateOutcomes limits persona r.2 ts

/-- `attempt k` of `_execute_node` is *unsuccessful*: the live attempt's
result fails the node's success condition, or the attempt raised. -/
def attemptFails (flow_id node_id : String) (nd : NodeDef) (persona : String)
    (params : List (String × String)) (o : AttemptOutcome) : Prop :=
  match (_execute_node_once flow_id node_id nd persona params false o).1 with
  | .ok r => _check_success_condition r nd = false
  | .error _ => True

/-- The exception name carried by a failed `execute_flow`. -/
def exceptErrName : Except String Summary → Option String
  | .error e => some e
  | .ok _ => none

/-! ## Sanitizer lemmas -/

theorem map_allowed_of_all (l : List Char) (h : l.all allowedChar = true) :
    l.map (fun c => if allowedChar c then c else '_') = l := by
  induction l with
  | nil => rfl
  | cons a t ih =>
    simp only [List.all_cons, Bool.and_eq_true] at h
    simp [h.1, ih h.2]

theorem san_data_all_allowed (v : Option String) : (_san v).data.all allowedChar = true := by
  cases v with
  | none => decide
  | some s =>
    unfold _san
    dsimp only
    split
    · decide
    · simp only [List.all_eq_true]
      intro c hc
      have hc2 := List.mem_of_mem_take hc
      rcases List.mem_map.mp hc2 with ⟨a, _, rfl⟩
      by_cases h : allowedChar a = true
      · rw [if_pos h]; exact h
      · rw [if_neg h]; decide

theorem san_length_le (v : Option String) : (_san v).length ≤ 64 := by
  cases v with
  | none => decide
  | some s =>
    unfold _san
    dsimp only
    split
    · decide
    · show (String.mk _).length ≤ 64
      simp only [String.length]
      calc ((s.data.map (fun c => if allowedChar c then c else '_')).take MAXLEN).length
          ≤ MAXLEN := List.length_take_le MAXLEN _
        _ ≤ 64 := by decide

theorem san_length_pos (v : Option String) : 0 < (_san v).length := by
  cases v with
  | none => decide
  | some s =>
    unfold _san
    dsimp only
    split
    · decide
    · rename_i ht
      have hne : ((s.data.map (fun c => if allowedChar c then c else '_')).take MAXLEN) ≠ [] := by
        intro h
        apply ht
        rw [h]
      show 0 < (String.mk _).length
      simp only [String.length]
      exact List.length_pos.mpr hne

/-- On a string every character of which is allowed, nonempty and of length
at most `MAXLEN`, the sanitizer acts as the identity. -/
theorem san_fixed (s : String) (hall : s.data.all allowedChar = true)
    (hne : s ≠ "") (hlen : s.length ≤ 64) : _san (some s) = s := by
  unfold _san
  dsimp only
  rw [map_allowed_of_all s.data hall]
  rw [List.take_of_length_le (show s.data.length ≤ MAXLEN from hlen)]
  have hs : String.mk s.data = s := rfl
  rw [hs, if_neg hne]


/-! ## Lemmas about the success-condition language -/

theorem lazyBody_some_ne_nil (l : List Char) :
    ∀ acc lit, lazyBody acc l = some lit → lit ≠ [] := by
  induction l with
  | nil => intro acc lit h; exact absurd h (by simp [lazyBody])
  | cons c1 rest ih =>
    intro acc lit h
    cases rest with
    | nil => exact absurd h (by simp [lazyBody])
    | cons c2 rest2 =>
      rw [lazyBody] at h
      by_cases hc : (acc ≠ [] && isQuote c1 && c2 == ')') = true
      · rw [if_pos hc] at h
        have hacc : acc ≠ [] := by
          have := (Bool.and_eq_true _ _).mp ((Bool.and_eq_true _ _).mp hc).1
          exact of_decide_eq_true this.1
        cases h
        simpa using hacc
      · rw [if_neg hc] at h
        by_cases hn : (c1 == '\n') = true
        · rw [if_pos hn] at h; cases h
        · rw [if_neg hn] at h
          exact ih (c1 :: acc) lit h

theorem containsMatchAt_some_ne_nil (l lit : List Char)
    (h : containsMatchAt l = some lit) : lit ≠ [] := by
  unfold containsMatchAt at h
  rcases hd : dropLiteral "contains(".data l with _ | rest
  · rw [hd] at h; cases h
  · rw [hd] at h
    cases rest with
    | nil => cases h
    | cons q rest2 =>
      dsimp only at h
      by_cases hq : isQuote q = true
      · rw [if_pos hq] at h
        exact lazyBody_some_ne_nil rest2 [] lit h
      · rw [if_neg hq] at h; cases h

theorem containsSearch_some_ne_nil (l : List Char) :
    ∀ lit, containsSearch l = some lit → lit ≠ [] := by
  induction l with
  | nil => intro lit h; cases h
  | cons c rest ih =>
    intro lit h
    rw [containsSearch] at h
    rcases hm : containsMatchAt (c :: rest) with _ | lit2
    · rw [hm] at h
      exact ih lit h
    · rw [hm] at h
      cases h
      exact containsMatchAt_some_ne_nil _ _ hm

/-- A result with no exit code and empty stdout (in particular the timeout
result built by `_execute_node_once`) fails every success condition. -/
theorem no_exit_empty_stdout_fails (r : ExecutionResult) (nd : NodeDef)
    (hec : r.exit_code = none) (hso : r.stdout = "") :
    _check_success_condition r nd = false := by
  unfold _check_success_condition
  rcases nd.success_condition with _ | sc
  · simp [hec]
  · dsimp only
    by_cases h0 : strContains sc "exit_code == 0" = true
    · simp [h0, hec]
    · rw [if_neg h0]
      by_cases h1 : strContains sc "exit_code == 1" = true
      · simp [h1, hec]
      · rw [if_neg h1]
        by_cases h2 : strContains sc "contains" = true
        · rw [if_pos h2]
          rcases hs : containsSearch sc.data with _ | lit
          · simp [hec]
          · have hne := containsSearch_some_ne_nil sc.data lit hs
            dsimp only
            rw [hso]
            unfold strContains
            apply decide_eq_false
            intro hinf
            exact hne (List.infix_nil.mp hinf)
        · rw [if_neg h2]
          simp [hec]

/-! ## Lemmas about the node retry loop -/

/-- Every single attempt emits exactly its one step-latency observation. -/
theorem once_events (flow_id node_id : String) (nd : NodeDef) (persona : String)
    (params : List (String × String)) (dry_run : Bool) (o : AttemptOutcome) :
    (_execute_node_once flow_id node_id nd persona params dry_run o).2 =
      [MetricEvent.step flow_id node_id persona nd.model
        (if dry_run then "dry_run" else "live")] := by
  cases o <;> cases dry_run <;> rfl

/-- The outcome of a live attempt, a function of the body's outcome. -/
theorem once_fst_timedOut (flow_id node_id : String) (nd : NodeDef) (persona : String)
    (params : List (String × String)) :
    (_execute_node_once flow_id node_id nd persona params false .timedOut).1 =
      .ok { node_id := node_id, status := .timeout,
            error_message :=
              some ("Command timed out after " ++ toString nd.timeout ++ "s") } := by
  rfl

/-- The fully reduced pair returned by a live attempt that timed out. -/
theorem once_live_timedOut (flow_id node_id : String) (nd : NodeDef) (persona : String)
    (params : List (String × String)) :
    _execute_node_once flow_id node_id nd persona params false .timedOut =
      (.ok { node_id := node_id, status := .timeout,
             error_message :=
               some ("Command timed out after " ++ toString nd.timeout ++ "s") },
       [MetricEvent.step flow_id node_id persona nd.model "live"]) := rfl

theorem isRetryEvent_step (a b c d e : String) :
    isRetryEvent (MetricEvent.step a b c d e) = false := rfl

/-- If every attempt up to the retry budget is unsuccessful and the final
attempt times out, the retry loop runs all `retries + 1` attempts, emits one
retry counter per non-final attempt, and terminates with the timeout
attempt's result — its status overwritten to `failed` by the
success-condition check. -/
theorem loop_all_fail_timeout (flow_id node_id : String) (nd : NodeDef) (persona : String)
    (params : List (String × String)) (body : Nat → AttemptOutcome) :
    ∀ (fuel attempt : Nat) (last : Option ExecutionResult) (events : List MetricEvent),
    attempt + fuel = nd.retries + 2 →
    1 ≤ attempt → attempt ≤ nd.retries + 1 →
    (∀ k, attempt ≤ k → k ≤ nd.retries →
      attemptFails flow_id node_id nd persona params (body k)) →
    body (nd.retries + 1) = .timedOut →
    (_execute_node_loop flow_id node_id nd persona params false body nd.retries
        attempt fuel last events).1.status = .failed ∧
    (_execute_node_loop flow_id node_id nd persona params false body nd.retries
        attempt fuel last events).1.error_message =
      some ("Command timed out after " ++ toString nd.timeout ++ "s") ∧
    (_execute_node_loop flow_id node_id nd persona params false body nd.retries
        attempt fuel last events).1.attempts = nd.retries + 1 ∧
    ((_execute_node_loop flow_id node_id nd persona params false body nd.retries
        attempt fuel last events).2.filter isRetryEvent).length =
      (events.filter isRetryEvent).length + (nd.retries + 1 - attempt) := by
  intro fuel
  induction fuel with
  | zero =>
    intro attempt last events hsum h1 hub _ _
    omega
  | succ fuel ih =>
    intro attempt last events hsum h1 hub hfail hfinal
    by_cases hle : attempt ≤ nd.retries
    · have aF := hfail attempt le_rfl hle
      unfold attemptFails at aF
      rcases h1s : _execute_node_once flow_id node_id nd persona params false (body attempt)
        with ⟨res, evs⟩
      rw [h1s] at aF
      have hevs : evs = [MetricEvent.step flow_id node_id persona nd.model "live"] := by
        have := once_events flow_id node_id nd persona params false (body attempt)
        rw [h1s] at this
        simpa using this
      cases res with
      | ok r =>
        dsimp only at aF
        simp only [_execute_node_loop, h1s]
        rw [aF]
        simp only [Bool.false_eq_true, if_false, if_pos hle]
        have := ih (attempt + 1)
          (some { r with status := ExecutionStatus.failed })
          (events ++ evs ++ [MetricEvent.retry flow_id node_id persona])
          (by omega) (by omega) (by omega)
          (fun k hk1 hk2 => hfail k (by omega) hk2) hfinal
        refine ⟨this.1, this.2.1, this.2.2.1, ?_⟩
        rw [this.2.2.2]
        rw [hevs]
        simp [List.filter_append, isRetryEvent]
        omega
      | error msg =>
        simp only [_execute_node_loop, h1s]
        simp only [if_pos hle]
        have := ih (attempt + 1)
          (some { node_id := node_id, status := .failed,
                  attempts := attempt, error_message := some msg })
          (events ++ evs ++ [MetricEvent.retry flow_id node_id persona])
          (by omega) (by omega) (by omega)
          (fun k hk1 hk2 => hfail k (by omega) hk2) hfinal
        refine ⟨this.1, this.2.1, this.2.2.1, ?_⟩
        rw [this.2.2.2]
        rw [hevs]
        simp [List.filter_append, isRetryEvent]
        omega
    · have hat : attempt = nd.retries + 1 := by omega
      have hb : body attempt = .timedOut := by rw [hat]; exact hfinal
      simp only [_execute_node_loop, hb, once_live_timedOut]
      have hchk : _check_success_condition
          { node_id := node_id, status := ExecutionStatus.timeout,
            error_message :=
              some ("Command timed out after " ++ toString nd.timeout ++ "s") } nd = false :=
        no_exit_empty_stdout_fails _ nd rfl rfl
      rw [hchk]
      simp only [Bool.false_eq_true, if_false, if_neg hle]
      refine ⟨?_, ?_, ?_, ?_⟩
      · trivial
      · trivial
      · trivial
      · simp [List.filter_append, isRetryEvent]
        omega

/-- If attempts `attempt..succAt-1` are unsuccessful and attempt `succAt`
produces a result passing the success condition, the retry loop returns
that result with status `success` and `attempts = succAt`, having emitted
one retry counter per unsuccessful attempt. -/
theorem loop_first_success (flow_id node_id : String) (nd : NodeDef) (persona : String)
    (params : List (String × String)) (body : Nat → AttemptOutcome)
    (succAt : Nat) (r : ExecutionResult) (evsS : List MetricEvent)
    (hok : _execute_node_once flow_id node_id nd persona params false (body succAt) =
      (.ok r, evsS))
    (hchk : _check_success_condition r nd = true)
    (hub : succAt ≤ nd.retries + 1) :
    ∀ (fuel attempt : Nat) (last : Option ExecutionResult) (events : List MetricEvent),
    attempt + fuel = nd.retries + 2 →
    1 ≤ attempt → attempt ≤ succAt →
    (∀ k, attempt ≤ k → k < succAt →
      attemptFails flow_id node_id nd persona params (body k)) →
    (_execute_node_loop flow_id node_id nd persona params false body nd.retries
        attempt fuel last events).1 = { r with status := .success, attempts := succAt } ∧
    (_execute_node_loop flow_id node_id nd persona params false body nd.retries
        attempt fuel last events).2.filter isRetryEvent =
      events.filter isRetryEvent ++
        List.replicate (succAt - attempt) (MetricEvent.retry flow_id node_id persona) := by
  intro fuel
  induction fuel with
  | zero =>
    intro attempt last events hsum h1 hle _
    omega
  | succ fuel ih =>
    intro attempt last events hsum h1 hle hfail
    by_cases heq : attempt = succAt
    · subst heq
      simp only [_execute_node_loop, hok]
      rw [hchk]
      have hevs : evsS = [MetricEvent.step flow_id node_id persona nd.model "live"] := by
        have := once_events flow_id node_id nd persona params false (body attempt)
        rw [hok] at this
        simpa using this
      refine ⟨rfl, ?_⟩
      rw [hevs]
      simp [List.filter_append, isRetryEvent]
    · have hlt : attempt < succAt := lt_of_le_of_ne hle heq
      have aF := hfail attempt le_rfl hlt
      unfold attemptFails at aF
      rcases h1s : _execute_node_once flow_id node_id nd persona params false (body attempt)
        with ⟨res, evs⟩
      rw [h1s] at aF
      have hevs : evs = [MetricEvent.step flow_id node_id persona nd.model "live"] := by
        have := once_events flow_id node_id nd persona params false (body attempt)
        rw [h1s] at this
        simpa using this
      have hle2 : attempt ≤ nd.retries := by omega
      cases res with
      | ok r2 =>
        dsimp only at aF
        simp only [_execute_node_loop, h1s]
        rw [aF]
        simp only [Bool.false_eq_true, if_false, if_pos hle2]
        have := ih (attempt + 1)
          (some { r2 with status := ExecutionStatus.failed })
          (events ++ evs ++ [MetricEvent.retry flow_id node_id persona])
          (by omega) (by omega) (by omega)
          (fun k hk1 hk2 => hfail k (by omega) hk2)
        refine ⟨this.1, ?_⟩
        rw [this.2, hevs]
        simp [List.filter_append, isRetryEvent]
        rw [show succAt - attempt = (succAt - (attempt + 1)) + 1 by omega]
        rw [List.replicate_succ]
      | error msg =>
        simp only [_execute_node_loop, h1s]
        simp only [if_pos hle2]
        have := ih (attempt + 1)
          (some { node_id := node_id, status := .failed,
                  attempts := attempt, error_message := some msg })
          (events ++ evs ++ [MetricEvent.retry flow_id node_id persona])
          (by omega) (by omega) (by omega)
          (fun k hk1 hk2 => hfail k (by omega) hk2)
        refine ⟨this.1, ?_⟩
        rw [this.2, hevs]
        simp [List.filter_append, isRetryEvent]
        rw [show succAt - attempt = (succAt - (attempt + 1)) + 1 by omega]
        rw [List.replicate_succ]

/-! ## Claim C1 -/

/-- **C1**, as stated, is false on the code: with `timeout=1`, `retries=0`
and a live body exceeding its timeout on the (only and final) attempt, the
result returned by `_execute_node` has terminal status `failed`, not
`timeout`: the per-attempt `timeout` status is overwritten when the
success-condition check marks the attempt unsuccessful. -/
theorem C1_counterexample_terminal_status :
    (_execute_node "flow_t" "n1"
        { command := "sleep 2", timeout := 1, retries := 0 } "CODER_AI" [] false
        (fun _ => .timedOut)).1.status = ExecutionStatus.failed ∧
    ¬ ((_execute_node "flow_t" "n1"
        { command := "sleep 2", timeout := 1, retries := 0 } "CODER_AI" [] false
        (fun _ => .timedOut)).1.status = ExecutionStatus.timeout) := by
  decide

/-- **C1** (amended): for every node whose live command execution exceeds
its configured timeout on the final attempt (all earlier attempts being
unsuccessful), the `ExecutionResult` returned by `_execute_node` carries
the timeout attempt's error message (`Command timed out after {timeout}s`)
and the full attempt count, but its terminal status is `failed`, not
`timeout`; the timeout is treated as a failure and is subject to the same
retry policy as any other failure (one `step_retries_total` increment per
attempt with a retry remaining). -/
theorem C1_amended_timeout_is_failed (flow_id node_id : String) (nd : NodeDef)
    (persona : String) (params : List (String × String)) (body : Nat → AttemptOutcome)
    (hfail : ∀ k, 1 ≤ k → k ≤ nd.retries →
      attemptFails flow_id node_id nd persona params (body k))
    (hfinal : body (nd.retries + 1) = .timedOut) :
    (_execute_node flow_id node_id nd persona params false body).1.status =
      ExecutionStatus.failed ∧
    (_execute_node flow_id node_id nd persona params false body).1.error_message =
      some ("Command timed out after " ++ toString nd.timeout ++ "s") ∧
    (_execute_node flow_id node_id nd persona params false body).1.attempts =
      nd.retries + 1 ∧
    ((_execute_node flow_id node_id nd persona params false body).2.filter
        isRetryEvent).length = nd.retries := by
  have h := loop_all_fail_timeout flow_id node_id nd persona params body
    (nd.retries + 1) 1 none [] (by omega) le_rfl (by omega) hfail hfinal
  unfold _execute_node
  refine ⟨h.1, h.2.1, h.2.2.1, ?_⟩
  rw [h.2.2.2]
  simp

/-- Witness for `C1_amended_timeout_is_failed` at a concrete input:
`retries = 1`, every attempt timing out. -/
theorem C1_amended_timeout_is_failed_witness :
    (_execute_node "flow_t" "n1"
        { command := "sleep 2", timeout := 1, retries := 1 } "CODER_AI" [] false
        (fun _ => .timedOut)).1.status = ExecutionStatus.failed ∧
    (_execute_node "flow_t" "n1"
        { command := "sleep 2", timeout := 1, retries := 1 } "CODER_AI" [] false
        (fun _ => .timedOut)).1.error_message = some "Command timed out after 1s" ∧
    (_execute_node "flow_t" "n1"
        { command := "sleep 2", timeout := 1, retries := 1 } "CODER_AI" [] false
        (fun _ => .timedOut)).1.attempts = 2 ∧
    ((_execute_node "flow_t" "n1"
        { command := "sleep 2", timeout := 1, retries := 1 } "CODER_AI" [] false
        (fun _ => .timedOut)).2.filter isRetryEvent).length = 1 :=
  C1_amended_timeout_is_failed "flow_t" "n1"
    { command := "sleep 2", timeout := 1, retries := 1 } "CODER_AI" []
    (fun _ => .timedOut) (fun _ _ _ => rfl) rfl

/-! ## Claim C5 -/

/-- **C5**: for a node with `retries = 2`, `retry_delay = 0` and the default
success condition, whose live body exits 1 on attempts 1 and 2 and exits 0
on attempt 3, `_execute_node` returns `attempts = 3` with terminal status
`success`, and exactly two `step_retries_total` increments are emitted,
both labelled `(flow_id, node_id, persona)` — one per unsuccessful attempt
that still had a retry remaining. -/
theorem C5_retry_then_success (flow_id node_id persona : String) (nd : NodeDef)
    (params : List (String × String)) (body : Nat → AttemptOutcome)
    (o1 e1 o2 e2 o3 e3 : String)
    (hr : nd.retries = 2) (hd : nd.retry_delay = 0) (hsc : nd.success_condition = none)
    (hb1 : body 1 = .completed 1 o1 e1) (hb2 : body 2 = .completed 1 o2 e2)
    (hb3 : body 3 = .completed 0 o3 e3) :
    (_execute_node flow_id node_id nd persona params false body).1.attempts = 3 ∧
    (_execute_node flow_id node_id nd persona params false body).1.status =
      ExecutionStatus.success ∧
    (_execute_node flow_id node_id nd persona params false body).2.filter isRetryEvent =
      [MetricEvent.retry flow_id node_id persona,
       MetricEvent.retry flow_id node_id persona] := by
  clear hd
  have hok : _execute_node_once flow_id node_id nd persona params false (body 3) =
      (.ok { node_id := node_id, status := .success, exit_code := some 0,
             stdout := o3, stderr := e3 },
       [MetricEvent.step flow_id node_id persona nd.model "live"]) := by
    rw [hb3]; rfl
  have hchk : _check_success_condition
      { node_id := node_id, status := .success, exit_code := some 0,
        stdout := o3, stderr := e3 } nd = true := by
    unfold _check_success_condition
    rw [hsc]
    rfl
  have h := loop_first_success flow_id node_id nd persona params body 3
    { node_id := node_id, status := .success, exit_code := some 0,
      stdout := o3, stderr := e3 }
    [MetricEvent.step flow_id node_id persona nd.model "live"] hok hchk (by omega)
    (nd.retries + 1) 1 none [] (by omega) le_rfl (by omega)
    (by
      intro k hk1 hk2
      have hf1 : _check_success_condition
          { node_id := node_id, status := .failed, exit_code := some 1,
            stdout := o1, stderr := e1 } nd = false := by
        unfold _check_success_condition
        rw [hsc]
        rfl
      have hf2 : _check_success_condition
          { node_id := node_id, status := .failed, exit_code := some 1,
            stdout := o2, stderr := e2 } nd = false := by
        unfold _check_success_condition
        rw [hsc]
        rfl
      interval_cases k
      · rw [hb1]; exact hf1
      · rw [hb2]; exact hf2)
  unfold _execute_node
  refine ⟨?_, ?_, ?_⟩
  · rw [h.1]
  · rw [h.1]
  · rw [h.2]
    rfl

/-- Witness for `C5_retry_then_success` at a concrete input. -/
theorem C5_retry_then_success_witness :
    (_execute_node "flow_w" "build" { command := "make", retries := 2, retry_delay := 0 }
        "CODER_AI" [] false
        (fun k => if k == 1 then .completed 1 "a" "b"
                  else if k == 2 then .completed 1 "c" "d"
                  else .completed 0 "ok" "")).1.attempts = 3 ∧
    (_execute_node "flow_w" "build" { command := "make", retries := 2, retry_delay := 0 }
        "CODER_AI" [] false
        (fun k => if k == 1 then .completed 1 "a" "b"
                  else if k == 2 then .completed 1 "c" "d"
                  else .completed 0 "ok" "")).1.status = ExecutionStatus.success ∧
    (_execute_node "flow_w" "build" { command := "make", retries := 2, retry_delay := 0 }
        "CODER_AI" [] false
        (fun k => if k == 1 then .completed 1 "a" "b"
                  else if k == 2 then .completed 1 "c" "d"
                  else .completed 0 "ok" "")).2.filter isRetryEvent =
      [MetricEvent.retry "flow_w" "build" "CODER_AI",
       MetricEvent.retry "flow_w" "build" "CODER_AI"] :=
  C5_retry_then_success "flow_w" "build" "CODER_AI"
    { command := "make", retries := 2, retry_delay := 0 } []
    (fun k => if k == 1 then .completed 1 "a" "b"
              else if k == 2 then .completed 1 "c" "d"
              else .completed 0 "ok" "")
    "a" "b" "c" "d" "ok" "" rfl rfl rfl rfl rfl rfl

/-! ## Claim C7 -/

/-- **C7**, as stated, is false on one literal: in the `{n1→n2→n3}` run
with `fail_fast = false` and `n1` failing, node `n2` is skipped with
`error_message = "Predecessor failed"` (capital `P`), not
`"predecessor failed"` as the claim quotes. -/
theorem C7_counterexample_message_capitalization :
    List.lookup "n2" (_execute_dag_loop
      { nodes := [("n1", { command := "exit 1" }), ("n2", { command := "echo ok" }),
                  ("n3", { command := "echo ok" })],
        edges := [⟨"n1", "n2", none⟩, ⟨"n2", "n3", none⟩], guards := [],
        fail_fast := false }
      (dagEdgesList
        { nodes := [("n1", { command := "exit 1" }), ("n2", { command := "echo ok" }),
                    ("n3", { command := "echo ok" })],
          edges := [⟨"n1", "n2", none⟩, ⟨"n2", "n3", none⟩], guards := [],
          fail_fast := false })
      "flow_s5" "CODER_AI" [] false
      (fun n _ => if n == "n1" then .completed 1 "" "" else .completed 0 "" "")
      ["n1", "n2", "n3"] [] []).results =
      some { node_id := "n2", status := .skipped,
             error_message := some "Predecessor failed" } ∧
    ¬ (List.lookup "n2" (_execute_dag_loop
      { nodes := [("n1", { command := "exit 1" }), ("n2", { command := "echo ok" }),
                  ("n3", { command := "echo ok" })],
        edges := [⟨"n1", "n2", none⟩, ⟨"n2", "n3", none⟩], guards := [],
        fail_fast := false }
      (dagEdgesList
        { nodes := [("n1", { command := "exit 1" }), ("n2", { command := "echo ok" }),
                    ("n3", { command := "echo ok" })],
          edges := [⟨"n1", "n2", none⟩, ⟨"n2", "n3", none⟩], guards := [],
          fail_fast := false })
      "flow_s5" "CODER_AI" [] false
      (fun n _ => if n == "n1" then .completed 1 "" "" else .completed 0 "" "")
      ["n1", "n2", "n3"] [] []).results =
      some { node_id := "n2", status := .skipped,
             error_message := some "predecessor failed" }) := by
  decide

/-- **C7** (amended): in the `{n1→n2→n3}` run with `fail_fast = false`
where `n1` fails, `n2` and `n3` are marked `skipped` with
`error_message = "Predecessor failed"` (capital `P`), their bodies are
never executed (only `n1` emits a step-latency observation), and the run
summary has `success_rate = 0`; in general, any node one of whose
recorded predecessors has a non-`success` status or whose incoming edge's
`when` condition evaluates false is recorded as `skipped` with that
message, with no body execution and no metric emission. -/
theorem C7_amended_skip_semantics :
    (∀ (flow : FlowDef) (es : List (String × String × Option String))
       (flow_id persona : String) (params : List (String × String)) (dry_run : Bool)
       (body : String → Nat → AttemptOutcome) (n : String) (rest : List String)
       (results : List (String × ExecutionResult)) (events : List MetricEvent)
       (p : String) (r : ExecutionResult),
       p ∈ predecessors es n →
       List.lookup p results = some r →
       (r.status ≠ ExecutionStatus.success ∨
         _evaluate_condition (edgeCondition es p n) results = false) →
       _execute_dag_loop flow es flow_id persona params dry_run body
           (n :: rest) results events =
         _execute_dag_loop flow es flow_id persona params dry_run body rest
           (results ++ [(n, { node_id := n, status := .skipped,
                              error_message := some "Predecessor failed" })]) events) ∧
    ((execute_flow
        [("flow_s5",
          { nodes := [("n1", { command := "exit 1" }), ("n2", { command := "echo ok" }),
                      ("n3", { command := "echo ok" })],
            edges := [⟨"n1", "n2", none⟩, ⟨"n2", "n3", none⟩], guards := [],
            fail_fast := false })]
        "flow_s5" [] false "dev" (fun _ => .ok true)
        (fun n _ => if n == "n1" then .completed 1 "" "" else .completed 0 "" "")).1.toOption.map
          Summary.node_results =
      some [("n1", ⟨"failed", 1, some 1⟩), ("n2", ⟨"skipped", 1, none⟩),
            ("n3", ⟨"skipped", 1, none⟩)]) ∧
    ((execute_flow
        [("flow_s5",
          { nodes := [("n1", { command := "exit 1" }), ("n2", { command := "echo ok" }),
                      ("n3", { command := "echo ok" })],
            edges := [⟨"n1", "n2", none⟩, ⟨"n2", "n3", none⟩], guards := [],
            fail_fast := false })]
        "flow_s5" [] false "dev" (fun _ => .ok true)
        (fun n _ => if n == "n1" then .completed 1 "" "" else .completed 0 "" "")).1.toOption.map
          Summary.success_rate =
      some 0) ∧
    ((execute_flow
        [("flow_s5",
          { nodes := [("n1", { command := "exit 1" }), ("n2", { command := "echo ok" }),
                      ("n3", { command := "echo ok" })],
            edges := [⟨"n1", "n2", none⟩, ⟨"n2", "n3", none⟩], guards := [],
            fail_fast := false })]
        "flow_s5" [] false "dev" (fun _ => .ok true)
        (fun n _ => if n == "n1" then .completed 1 "" "" else .completed 0 "" "")).2.filter
          isStepEvent =
      [MetricEvent.step "flow_s5" "n1" "CODER_AI" "unknown" "live"]) := by
  refine ⟨?_, by decide, ?_, by decide⟩
  · intro flow es flow_id persona params dry_run body n rest results events p r hp hlook hbad
    have hall : _check_predecessor_success es n results = false := by
      unfold _check_predecessor_success
      apply List.all_eq_false.mpr
      refine ⟨p, hp, ?_⟩
      simp only [hlook]
      intro hcontra
      have hand := (Bool.and_eq_true _ _).mp hcontra
      rcases hbad with hne | hev
      · exact hne (by simpa using hand.1)
      · rw [hev] at hand
        exact Bool.false_ne_true hand.2
    simp [_execute_dag_loop, hall]
  · have hstep : (execute_flow
        [("flow_s5",
          { nodes := [("n1", { command := "exit 1" }), ("n2", { command := "echo ok" }),
                      ("n3", { command := "echo ok" })],
            edges := [⟨"n1", "n2", none⟩, ⟨"n2", "n3", none⟩], guards := [],
            fail_fast := false })]
        "flow_s5" [] false "dev" (fun _ => .ok true)
        (fun n _ => if n == "n1" then .completed 1 "" "" else .completed 0 "" "")).1.toOption.map
          Summary.success_rate = some (((0 : Nat) : ℚ) / ((3 : Nat) : ℚ)) := rfl
    rw [hstep]
    norm_num

/-- Witness for `C7_amended_skip_semantics`: its universally quantified
skip clause instantiated at a concrete one-edge graph with a failed
predecessor. -/
theorem C7_amended_skip_semantics_witness :
    _execute_dag_loop { nodes := [], edges := [] } [("a", "b", none)] "f" "p" [] true
        (fun _ _ => .completed 0 "" "") ["b"]
        [("a", { node_id := "a", status := .failed })] [] =
      _execute_dag_loop { nodes := [], edges := [] } [("a", "b", none)] "f" "p" [] true
        (fun _ _ => .completed 0 "" "") []
        ([("a", { node_id := "a", status := .failed })] ++
          [("b", { node_id := "b", status := .skipped,
                   error_message := some "Predecessor failed" })]) [] :=
  C7_amended_skip_semantics.1 { nodes := [], edges := [] } [("a", "b", none)] "f" "p" [] true
    (fun _ _ => .completed 0 "" "") "b" []
    [("a", { node_id := "a", status := .failed })] [] "a"
    { node_id := "a", status := .failed }
    (by decide) (by decide) (Or.inl (by decide))

/-! ## Claim C4 -/

/-- **C4**, as stated, is false on the reason label: a failing flow guard
makes `execute_flow` raise `ValueError`, and the failure metric is emitted
with `reason = "ValueError"` (the exception class name recorded by the
generic handler), never with `reason = "guards_failed"`. -/
theorem C4_counterexample_guard_reason :
    exceptErrName (execute_flow
        [("flow_a", { nodes := [("n1", { command := "echo ok" })], edges := [],
                      guards := ["branch_not_main"] })]
        "flow_a" [] true "main" (fun _ => .ok false)
        (fun _ _ => .completed 0 "" "")).1 = some "ValueError" ∧
    (execute_flow
        [("flow_a", { nodes := [("n1", { command := "echo ok" })], edges := [],
                      guards := ["branch_not_main"] })]
        "flow_a" [] true "main" (fun _ => .ok false)
        (fun _ _ => .completed 0 "" "")).2 =
      [MetricEvent.flowStart "flow_a" "CODER_AI" "dry_run" "main",
       MetricEvent.flowEnd "flow_a" "CODER_AI" "dry_run" "main" false "ValueError"] ∧
    ¬ (MetricEvent.flowEnd "flow_a" "CODER_AI" "dry_run" "main" false "guards_failed" ∈
        (execute_flow
          [("flow_a", { nodes := [("n1", { command := "echo ok" })], edges := [],
                        guards := ["branch_not_main"] })]
          "flow_a" [] true "main" (fun _ => .ok false)
          (fun _ _ => .completed 0 "" "")).2) := by
  decide

/-- **C4** (amended): whenever any flow-level guard evaluates false during
`execute_flow`, no node is executed (no step-latency event is emitted), the
run raises `ValueError`, and the flow-failure metric is emitted as
`flow_end(success=false, reason="ValueError")` — the reason label is the
raised exception's class name, not `"guards_failed"`; the sanitizer passes
the label through unchanged. -/
theorem C4_amended_guard_failure_reason (flows : List (String × FlowDef)) (flow_id : String)
    (flow : FlowDef) (params : List (String × String)) (dry_run : Bool) (branch : String)
    (genv : String → Except String Bool) (body : String → Nat → AttemptOutcome) (g : String)
    (hlook : List.lookup flow_id flows = some flow)
    (hg : g ∈ flow.guards) (hfalse : genv g = .ok false) :
    execute_flow flows flow_id params dry_run branch genv body =
      (.error "ValueError",
       [MetricEvent.flowStart flow_id ((List.lookup "persona" params).getD "CODER_AI")
          (if dry_run then "dry_run" else "live") branch,
        MetricEvent.flowEnd flow_id ((List.lookup "persona" params).getD "CODER_AI")
          (if dry_run then "dry_run" else "live") branch false "ValueError"]) ∧
    (∀ e ∈ (execute_flow flows flow_id params dry_run branch genv body).2,
       isStepEvent e = false) ∧
    _san (some "ValueError") = "ValueError" := by
  have hguards : _execute_flow_guards genv flow.guards = false := by
    apply List.all_eq_false.mpr
    exact ⟨g, hg, by simp [hfalse]⟩
  have hmain : execute_flow flows flow_id params dry_run branch genv body =
      (.error "ValueError",
       [MetricEvent.flowStart flow_id ((List.lookup "persona" params).getD "CODER_AI")
          (if dry_run then "dry_run" else "live") branch,
        MetricEvent.flowEnd flow_id ((List.lookup "persona" params).getD "CODER_AI")
          (if dry_run then "dry_run" else "live") branch false "ValueError"]) := by
    unfold execute_flow
    rw [hlook]
    simp [hguards]
  refine ⟨hmain, ?_, by decide⟩
  intro e he
  rw [hmain] at he
  simp only [List.mem_cons, List.mem_singleton, List.not_mem_nil, or_false] at he
  rcases he with rfl | rfl <;> rfl

/-- Witness for `C4_amended_guard_failure_reason` at a concrete registry
whose single guard evaluates false. -/
theorem C4_amended_guard_failure_reason_witness :
    execute_flow
        [("flow_a", { nodes := [("n1", { command := "echo ok" })], edges := [],
                      guards := ["branch_not_main"] })]
        "flow_a" [] true "main" (fun _ => .ok false) (fun _ _ => .completed 0 "" "") =
      (.error "ValueError",
       [MetricEvent.flowStart "flow_a" ((List.lookup "persona" ([] : List (String × String))).getD "CODER_AI")
          (if true then "dry_run" else "live") "main",
        MetricEvent.flowEnd "flow_a" ((List.lookup "persona" ([] : List (String × String))).getD "CODER_AI")
          (if true then "dry_run" else "live") "main" false "ValueError"]) ∧
    (∀ e ∈ (execute_flow
        [("flow_a", { nodes := [("n1", { command := "echo ok" })], edges := [],
                      guards := ["branch_not_main"] })]
        "flow_a" [] true "main" (fun _ => .ok false)
        (fun _ _ => .completed 0 "" "")).2, isStepEvent e = false) ∧
    _san (some "ValueError") = "ValueError" :=
  C4_amended_guard_failure_reason
    [("flow_a", { nodes := [("n1", { command := "echo ok" })], edges := [],
                  guards := ["branch_not_main"] })]
    "flow_a"
    { nodes := [("n1", { command := "echo ok" })], edges := [],
      guards := ["branch_not_main"] }
    [] true "main" (fun _ => .ok false) (fun _ _ => .completed 0 "" "")
    "branch_not_main" rfl (by decide) rfl

/-! ## Claim C8 -/

/-- **C8**, as stated, is false on both halves: the zero-node flow's lint
finding `NO_ROOT_NODES` carries severity `ERROR`, not `WARNING`, and the
Flow Runner does not refuse to run such a flow — `execute_flow` completes
without raising, returning a summary with zero nodes. -/
theorem C8_counterexample_zero_node_flow :
    (_validate_dag_structure [] [] "flow_empty" "flow/flow_registry.yaml" =
      [⟨"ERROR", "NO_ROOT_NODES",
        "Flow 'flow_empty' has no root nodes (nodes with no incoming edges)",
        "flow/flow_registry.yaml"⟩]) ∧
    (∀ e ∈ _validate_dag_structure [] [] "flow_empty" "flow/flow_registry.yaml",
      ¬ e.level = "WARNING") ∧
    exceptErrName (execute_flow
        [("flow_empty", { nodes := [], edges := [], guards := [] })]
        "flow_empty" [] true "dev" (fun _ => .ok true)
        (fun _ _ => .completed 0 "" "")).1 = none ∧
    (execute_flow
        [("flow_empty", { nodes := [], edges := [], guards := [] })]
        "flow_empty" [] true "dev" (fun _ => .ok true)
        (fun _ _ => .completed 0 "" "")).1.toOption.map Summary.total_nodes = some 0 := by
  refine ⟨by decide, by decide, by decide, by decide⟩

/-- **C8** (amended): a flow with zero nodes produces the lint finding
`NO_ROOT_NODES` with severity `ERROR` (not `WARNING`), and the Flow Runner
does not refuse such a flow: `execute_flow` runs it without raising,
executes no node, and returns a summary with `total_nodes = 0` and
`success_rate = 0`. -/
theorem C8_amended_zero_node_flow :
    (∀ (flow_id file_path : String),
      _validate_dag_structure [] [] flow_id file_path =
        [⟨"ERROR", "NO_ROOT_NODES",
          "Flow '" ++ flow_id ++ "' has no root nodes (nodes with no incoming edges)",
          file_path⟩]) ∧
    (∀ (flows : List (String × FlowDef)) (fid : String) (flow : FlowDef)
       (params : List (String × String)) (dry_run : Bool) (branch : String)
       (genv : String → Except String Bool) (body : String → Nat → AttemptOutcome),
      List.lookup fid flows = some flow →
      flow.nodes = [] → flow.edges = [] → flow.guards = [] →
      exceptErrName (execute_flow flows fid params dry_run branch genv body).1 = none ∧
      (execute_flow flows fid params dry_run branch genv body).1.toOption.map
        Summary.total_nodes = some 0 ∧
      (execute_flow flows fid params dry_run branch genv body).1.toOption.map
        Summary.success_rate = some 0 ∧
      (execute_flow flows fid params dry_run branch genv body).2.filter isStepEvent = []) := by
  refine ⟨fun flow_id file_path => rfl, ?_⟩
  intro flows fid flow params dry_run branch genv body hlook hn he hg
  unfold execute_flow
  rw [hlook]
  simp [hg, hn, he, _execute_flow_guards, dagNodesList, dagEdgesList, topologicalSort,
    topoSortAux, _execute_dag_loop, _generate_execution_summary, exceptErrName,
    Except.toOption, isStepEvent]

/-- Witness for `C8_amended_zero_node_flow`: its runner clause instantiated
at a concrete registry holding one zero-node flow. -/
theorem C8_amended_zero_node_flow_witness :
    exceptErrName (execute_flow
        [("flow_empty", { nodes := [], edges := [], guards := [] })]
        "flow_empty" [] true "dev" (fun _ => .ok true)
        (fun _ _ => .completed 0 "" "")).1 = none ∧
    (execute_flow
        [("flow_empty", { nodes := [], edges := [], guards := [] })]
        "flow_empty" [] true "dev" (fun _ => .ok true)
        (fun _ _ => .completed 0 "" "")).1.toOption.map Summary.total_nodes = some 0 ∧
    (execute_flow
        [("flow_empty", { nodes := [], edges := [], guards := [] })]
        "flow_empty" [] true "dev" (fun _ => .ok true)
        (fun _ _ => .completed 0 "" "")).1.toOption.map Summary.success_rate = some 0 ∧
    (execute_flow
        [("flow_empty", { nodes := [], edges := [], guards := [] })]
        "flow_empty" [] true "dev" (fun _ => .ok true)
        (fun _ _ => .completed 0 "" "")).2.filter isStepEvent = [] :=
  C8_amended_zero_node_flow.2
    [("flow_empty", { nodes := [], edges := [], guards := [] })]
    "flow_empty" { nodes := [], edges := [], guards := [] }
    [] true "dev" (fun _ => .ok true) (fun _ _ => .completed 0 "" "")
    rfl rfl rfl rfl

/-! ## Lemmas about the distributed step executor -/

theorem incr_idemp (st : KVState) (k : String) (t : Nat) :
    (incr st k t).2.idemp = st.idemp := by
  unfold incr
  split <;> rfl

theorem expireKey_idemp (st : KVState) (k : String) (ttl t : Nat) :
    (expireKey st k ttl t).idemp = st.idemp := rfl

/-- The rate limiter touches only rate counters, never idempotency keys. -/
theorem rate_limited_idemp (limits : List (String × Nat × Nat)) (st : KVState)
    (persona : String) (t : Nat) :
    (_rate_limited limits st persona t).2.idemp = st.idemp := by
  unfold _rate_limited
  dsimp only
  split
  · rw [expireKey_idemp, incr_idemp]
  · rw [incr_idemp]

theorem idempAlive_congr (st st' : KVState) (k : String) (t : Nat)
    (h : st.idemp = st'.idemp) : idempAlive st k t = idempAlive st' k t := by
  unfold idempAlive
  rw [h]

/-- A key just written by `setKey` is live with the fresh value and TTL
until its expiry. -/
theorem idempAlive_setKey_self (st : KVState) (k v : String) (ttl t t' : Nat) :
    idempAlive (setKey st k v ttl t) k t' =
      if t' < t + ttl then some (v, t + ttl) else none := by
  unfold idempAlive setKey
  dsimp only
  rw [List.find?_append]
  have hnone : (st.idemp.filter (fun e => !(e.1 == k))).find? (fun e => e.1 == k) = none := by
    apply List.find?_eq_none.mpr
    intro x hx
    have := List.of_mem_filter hx
    simp at this
    simp [this]
  rw [hnone]
  simp

/-- `SET NX` fails exactly on a live key, leaving the store unchanged. -/
theorem setNX_of_alive (st : KVState) (k v : String) (ttl t : Nat) (val : String × Nat)
    (h : idempAlive st k t = some val) : setNX st k v ttl t = (false, st) := by
  unfold setNX
  rw [h]

theorem setNX_of_fresh (st : KVState) (k v : String) (ttl t : Nat)
    (h : idempAlive st k t = none) : setNX st k v ttl t = (true, setKey st k v ttl t) := by
  unfold setNX
  rw [h]

/-- A submission that passes the rate check, claims a fresh idempotency key
and passes the write guards: it runs the body, emits the flow/step metrics,
and — success or raised body alike, through the `finally` — leaves the key
holding `"done"` with a fresh 24-hour TTL. -/
theorem execute_step_first_claim (h12 h16 : String → String)
    (limits : List (String × Nat × Nat)) (aw : Bool) (st0 : KVState) (t1 : Nat)
    (flow_id task_id step_id persona exec_mode branch model payload : String)
    (ad b1 : Bool)
    (hrate : (_rate_limited limits st0 persona t1).1 = false)
    (hfresh : idempAlive st0 (_idempotency_key h12 flow_id task_id step_id
      (_payload_hash h16 payload)) t1 = none)
    (hw : (exec_mode == "live" && !aw) = false)
    (hd : (!ad && exec_mode == "live") = false) :
    execute_step h12 h16 limits aw st0 t1 flow_id task_id step_id persona exec_mode branch
        model payload ad b1 =
      ((if b1 then StepOutcome.bodyRaised "RuntimeError" else StepOutcome.bodyOk),
       setKey (setKey (_rate_limited limits st0 persona t1).2
         (_idempotency_key h12 flow_id task_id step_id (_payload_hash h16 payload))
         "running" 86400 t1)
         (_idempotency_key h12 flow_id task_id step_id (_payload_hash h16 payload))
         "done" 86400 t1,
       if b1 then
         [MetricEvent.flowStart flow_id persona exec_mode branch,
          MetricEvent.step flow_id step_id persona model exec_mode,
          MetricEvent.retry flow_id step_id persona,
          MetricEvent.flowEnd flow_id persona exec_mode branch false "RuntimeError"]
       else
         [MetricEvent.flowStart flow_id persona exec_mode branch,
          MetricEvent.step flow_id step_id persona model exec_mode,
          MetricEvent.flowEnd flow_id persona exec_mode branch true "ok"]) := by
  have hfresh2 : idempAlive (_rate_limited limits st0 persona t1).2
      (_idempotency_key h12 flow_id task_id step_id (_payload_hash h16 payload)) t1 = none := by
    rw [idempAlive_congr _ st0 _ _ (rate_limited_idemp limits st0 persona t1)]
    exact hfresh
  unfold execute_step
  simp only [hrate, Bool.false_eq_true, if_false,
    setNX_of_fresh _ _ _ _ _ hfresh2, hw, hd]
  cases b1 <;> rfl

/-- A submission that passes the rate check while the idempotency key is
still live loses the `SET NX` claim: it is marked ignored (duplicate) and
acknowledged with no body execution, no metric emission, and no change to
the idempotency store (only its rate counter ticked). -/
theorem execute_step_duplicate (h12 h16 : String → String)
    (limits : List (String × Nat × Nat)) (aw : Bool) (st2 : KVState) (t2 : Nat)
    (flow_id task_id step_id persona2 exec2 branch2 model2 payload : String)
    (ad2 b2 : Bool) (val : String × Nat)
    (hrate : (_rate_limited limits st2 persona2 t2).1 = false)
    (halive : idempAlive st2 (_idempotency_key h12 flow_id task_id step_id
      (_payload_hash h16 payload)) t2 = some val) :
    execute_step h12 h16 limits aw st2 t2 flow_id task_id step_id persona2 exec2 branch2
        model2 payload ad2 b2 =
      (.ignored, (_rate_limited limits st2 persona2 t2).2, []) := by
  have halive2 : idempAlive (_rate_limited limits st2 persona2 t2).2
      (_idempotency_key h12 flow_id task_id step_id (_payload_hash h16 payload)) t2 =
      some val := by
    rw [idempAlive_congr _ st2 _ _ (rate_limited_idemp limits st2 persona2 t2)]
    exact halive
  unfold execute_step
  simp only [hrate, Bool.false_eq_true, if_false,
    setNX_of_alive _ _ _ _ _ _ halive2]
  rfl

/-- A rate-limited submission defers (re-enqueues itself); it touches
nothing but its rate counter and emits nothing. -/
theorem execute_step_deferred (h12 h16 : String → String)
    (limits : List (String × Nat × Nat)) (aw : Bool) (st : KVState) (t : Nat)
    (flow_id task_id step_id persona exec_mode branch model payload : String)
    (ad b : Bool)
    (hrate : (_rate_limited limits st persona t).1 = true) :
    execute_step h12 h16 limits aw st t flow_id task_id step_id persona exec_mode branch
        model payload ad b =
      (.deferred, (_rate_limited limits st persona t).2, []) := by
  unfold execute_step
  simp only [hrate, if_true]

/-! ## Claim C2 -/

/-- **C2**: for submissions with identical
`(flow_id, task_id, step_id, payload)`, the first claimant (rate check
passing, key not yet set, dry-run mode so the write guards pass) wins the
`SET NX` on the derived idempotency key and its body runs (its timing
scope is observed); afterwards the key is live (holding `"done"`) for the
full 24-hour TTL, and any later submission of the same quadruple made
while the key is live — whatever its persona, exec mode or body — fails
the `SET NX` claim, is ignored as a duplicate and acknowledged with no
body execution, no metric emission, and no change to the idempotency
store: at most one body execution per key within the TTL. -/
theorem C2_idempotent_duplicate_suppression (h12 h16 : String → String)
    (limits : List (String × Nat × Nat)) (aw : Bool) (st0 : KVState) (t1 : Nat)
    (flow_id task_id step_id persona branch model payload : String) (ad b1 : Bool)
    (hrate : (_rate_limited limits st0 persona t1).1 = false)
    (hfresh : idempAlive st0 (_idempotency_key h12 flow_id task_id step_id
      (_payload_hash h16 payload)) t1 = none) :
    ((execute_step h12 h16 limits aw st0 t1 flow_id task_id step_id persona "dry_run"
        branch model payload ad b1).1 =
      if b1 then StepOutcome.bodyRaised "RuntimeError" else StepOutcome.bodyOk) ∧
    ((execute_step h12 h16 limits aw st0 t1 flow_id task_id step_id persona "dry_run"
        branch model payload ad b1).2.2.filter isStepEvent =
      [MetricEvent.step flow_id step_id persona model "dry_run"]) ∧
    (∀ t2, t2 < t1 + 86400 →
      idempAlive (execute_step h12 h16 limits aw st0 t1 flow_id task_id step_id persona
          "dry_run" branch model payload ad b1).2.1
        (_idempotency_key h12 flow_id task_id step_id (_payload_hash h16 payload)) t2 =
      some ("done", t1 + 86400)) ∧
    (∀ (st2 : KVState) (t2 : Nat) (persona2 exec2 branch2 model2 : String)
       (ad2 b2 : Bool) (val : String × Nat),
      (_rate_limited limits st2 persona2 t2).1 = false →
      idempAlive st2 (_idempotency_key h12 flow_id task_id step_id
        (_payload_hash h16 payload)) t2 = some val →
      execute_step h12 h16 limits aw st2 t2 flow_id task_id step_id persona2 exec2 branch2
          model2 payload ad2 b2 =
        (.ignored, (_rate_limited limits st2 persona2 t2).2, []) ∧
      (_rate_limited limits st2 persona2 t2).2.idemp = st2.idemp) := by
  have hmain := execute_step_first_claim h12 h16 limits aw st0 t1 flow_id task_id step_id
    persona "dry_run" branch model payload ad b1 hrate hfresh (by rfl) (by simp)
  refine ⟨?_, ?_, ?_, ?_⟩
  · rw [hmain]
  · rw [hmain]
    cases b1 <;> rfl
  · intro t2 ht2
    rw [hmain]
    show idempAlive (setKey _ _ "done" 86400 t1) _ t2 = _
    rw [idempAlive_setKey_self]
    rw [if_pos ht2]
  · intro st2 t2 persona2 exec2 branch2 model2 ad2 b2 val hrate2 halive
    exact ⟨execute_step_duplicate h12 h16 limits aw st2 t2 flow_id task_id step_id persona2
      exec2 branch2 model2 payload ad2 b2 val hrate2 halive,
      rate_limited_idemp limits st2 persona2 t2⟩

/-- Witness for `C2_idempotent_duplicate_suppression`: a concrete first
submission on an empty store. -/
theorem C2_idempotent_duplicate_suppression_witness :
    ((execute_step (fun s => s) (fun s => s) RATE_LIMITS false ⟨[], []⟩ 0 "f" "t" "s"
        "CODER_AI" "dry_run" "dev" "m" "p" false false).1 =
      if false then StepOutcome.bodyRaised "RuntimeError" else StepOutcome.bodyOk) ∧
    ((execute_step (fun s => s) (fun s => s) RATE_LIMITS false ⟨[], []⟩ 0 "f" "t" "s"
        "CODER_AI" "dry_run" "dev" "m" "p" false false).2.2.filter isStepEvent =
      [MetricEvent.step "f" "s" "CODER_AI" "m" "dry_run"]) ∧
    (∀ t2, t2 < 0 + 86400 →
      idempAlive (execute_step (fun s => s) (fun s => s) RATE_LIMITS false ⟨[], []⟩ 0 "f"
          "t" "s" "CODER_AI" "dry_run" "dev" "m" "p" false false).2.1
        (_idempotency_key (fun s => s) "f" "t" "s"
          (_payload_hash (fun s => s) "p")) t2 =
      some ("done", 0 + 86400)) ∧
    (∀ (st2 : KVState) (t2 : Nat) (persona2 exec2 branch2 model2 : String)
       (ad2 b2 : Bool) (val : String × Nat),
      (_rate_limited RATE_LIMITS st2 persona2 t2).1 = false →
      idempAlive st2 (_idempotency_key (fun s => s) "f" "t" "s"
        (_payload_hash (fun s => s) "p")) t2 = some val →
      execute_step (fun s => s) (fun s => s) RATE_LIMITS false st2 t2 "f" "t" "s" persona2
          exec2 branch2 model2 "p" ad2 b2 =
        (.ignored, (_rate_limited RATE_LIMITS st2 persona2 t2).2, []) ∧
      (_rate_limited RATE_LIMITS st2 persona2 t2).2.idemp = st2.idemp) :=
  C2_idempotent_duplicate_suppression (fun s => s) (fun s => s) RATE_LIMITS false ⟨[], []⟩ 0
    "f" "t" "s" "CODER_AI" "dev" "m" "p" false false (by decide) (by decide)

/-! ## Claim C9 -/

/-- **C9**: when the claimed body raises (and write guards passed), the
re-raised exception surfaces for Celery autoretry, yet the `finally` block
still overwrites the idempotency key to `"done"` with a fresh 24-hour TTL
— not only on success; consequently any broker re-delivery of the same
`(flow_id, task_id, step_id, payload)` within that TTL loses the `SET NX`
claim and is ignored as a duplicate with no body execution: the failed
body is never re-run through this path. -/
theorem C9_finally_marks_done_on_failure (h12 h16 : String → String)
    (limits : List (String × Nat × Nat)) (aw : Bool) (st0 : KVState) (t1 : Nat)
    (flow_id task_id step_id persona exec_mode branch model payload : String) (ad : Bool)
    (hrate : (_rate_limited limits st0 persona t1).1 = false)
    (hfresh : idempAlive st0 (_idempotency_key h12 flow_id task_id step_id
      (_payload_hash h16 payload)) t1 = none)
    (hw : (exec_mode == "live" && !aw) = false)
    (hd : (!ad && exec_mode == "live") = false) :
    ((execute_step h12 h16 limits aw st0 t1 flow_id task_id step_id persona exec_mode
        branch model payload ad true).1 = StepOutcome.bodyRaised "RuntimeError") ∧
    (∀ t2, t2 < t1 + 86400 →
      idempAlive (execute_step h12 h16 limits aw st0 t1 flow_id task_id step_id persona
          exec_mode branch model payload ad true).2.1
        (_idempotency_key h12 flow_id task_id step_id (_payload_hash h16 payload)) t2 =
      some ("done", t1 + 86400)) ∧
    (∀ (st2 : KVState) (t2 : Nat) (persona2 exec2 branch2 model2 : String)
       (ad2 b2 : Bool) (val : String × Nat),
      (_rate_limited limits st2 persona2 t2).1 = false →
      idempAlive st2 (_idempotency_key h12 flow_id task_id step_id
        (_payload_hash h16 payload)) t2 = some val →
      execute_step h12 h16 limits aw st2 t2 flow_id task_id step_id persona2 exec2 branch2
          model2 payload ad2 b2 =
        (.ignored, (_rate_limited limits st2 persona2 t2).2, [])) := by
  have hmain := execute_step_first_claim h12 h16 limits aw st0 t1 flow_id task_id step_id
    persona exec_mode branch model payload ad true hrate hfresh hw hd
  refine ⟨?_, ?_, ?_⟩
  · rw [hmain]
    rfl
  · intro t2 ht2
    rw [hmain]
    show idempAlive (setKey _ _ "done" 86400 t1) _ t2 = _
    rw [idempAlive_setKey_self]
    rw [if_pos ht2]
  · intro st2 t2 persona2 exec2 branch2 model2 ad2 b2 val hrate2 halive
    exact execute_step_duplicate h12 h16 limits aw st2 t2 flow_id task_id step_id persona2
      exec2 branch2 model2 payload ad2 b2 val hrate2 halive

/-- Witness for `C9_finally_marks_done_on_failure`: a concrete failing body
on an empty store. -/
theorem C9_finally_marks_done_on_failure_witness :
    ((execute_step (fun s => s) (fun s => s) RATE_LIMITS false ⟨[], []⟩ 5 "f" "t" "s"
        "PO_AI" "dry_run" "dev" "m" "p" false true).1 =
      StepOutcome.bodyRaised "RuntimeError") ∧
    (∀ t2, t2 < 5 + 86400 →
      idempAlive (execute_step (fun s => s) (fun s => s) RATE_LIMITS false ⟨[], []⟩ 5 "f"
          "t" "s" "PO_AI" "dry_run" "dev" "m" "p" false true).2.1
        (_idempotency_key (fun s => s) "f" "t" "s"
          (_payload_hash (fun s => s) "p")) t2 =
      some ("done", 5 + 86400)) ∧
    (∀ (st2 : KVState) (t2 : Nat) (persona2 exec2 branch2 model2 : String)
       (ad2 b2 : Bool) (val : String × Nat),
      (_rate_limited RATE_LIMITS st2 persona2 t2).1 = false →
      idempAlive st2 (_idempotency_key (fun s => s) "f" "t" "s"
        (_payload_hash (fun s => s) "p")) t2 = some val →
      execute_step (fun s => s) (fun s => s) RATE_LIMITS false st2 t2 "f" "t" "s" persona2
          exec2 branch2 model2 "p" ad2 b2 =
        (.ignored, (_rate_limited RATE_LIMITS st2 persona2 t2).2, [])) :=
  C9_finally_marks_done_on_failure (fun s => s) (fun s => s) RATE_LIMITS false ⟨[], []⟩ 5
    "f" "t" "s" "PO_AI" "dry_run" "dev" "m" "p" false (by decide) (by decide) (by decide)
    (by simp)

/-! ## Lemmas about the fixed-window rate limiter -/

theorem rateAlive_of_find_none (st : KVState) (k : String) (t : Nat)
    (h : st.rate.find? (fun e => e.1 == k) = none) : rateAlive st k t = none := by
  unfold rateAlive
  rw [h]

theorem rateAlive_of_find_some (st : KVState) (k : String) (t c ex : Nat)
    (h : st.rate.find? (fun e => e.1 == k) = some (k, c, some ex)) (ht : t < ex) :
    rateAlive st k t = some (c, some ex) := by
  unfold rateAlive
  rw [h]
  simp [ht]

theorem find?_key_filtered_mapped (l : List (String × Nat × Option Nat)) (k : String)
    (f : (String × Nat × Option Nat) → (String × Nat × Option Nat))
    (hf : ∀ x, (f x).1 = x.1) :
    ((l.filter (fun e => !(e.1 == k))).map f).find? (fun e => e.1 == k) = none := by
  apply List.find?_eq_none.mpr
  intro x hx
  rcases List.mem_map.mp hx with ⟨y, hy, rfl⟩
  have hy2 := List.of_mem_filter hy
  simp only [Bool.not_eq_true', beq_eq_false_iff_ne, ne_eq] at hy2
  simp [hf y, hy2]

/-- First hit of a window: the counter is created at 1 and given the window
TTL measured from now. -/
theorem rate_limited_fresh (limits : List (String × Nat × Nat)) (st : KVState)
    (p : String) (t n w : Nat)
    (hnw : (List.lookup p limits).getD (20, 60) = (n, w))
    (hfind : st.rate.find?
      (fun e => e.1 == ("arx:rl:" ++ p ++ ":" ++ toString (t / w))) = none) :
    (_rate_limited limits st p t).1 = decide (1 > n) ∧
    (_rate_limited limits st p t).2.rate.find?
      (fun e => e.1 == ("arx:rl:" ++ p ++ ":" ++ toString (t / w))) =
      some ("arx:rl:" ++ p ++ ":" ++ toString (t / w), 1, some (t + w)) := by
  have hincr : incr st ("arx:rl:" ++ p ++ ":" ++ toString (t / w)) t =
      (1, { st with rate := (st.rate.filter
        (fun x => !(x.1 == "arx:rl:" ++ p ++ ":" ++ toString (t / w)))) ++
        [("arx:rl:" ++ p ++ ":" ++ toString (t / w), 1, none)] }) := by
    unfold incr
    rw [rateAlive_of_find_none st _ t hfind]
  unfold _rate_limited
  rw [hnw]
  dsimp only
  rw [hincr]
  dsimp only
  constructor
  · rfl
  · rw [if_pos (show ((1:Nat) == 1) = true from rfl)]
    unfold expireKey
    dsimp only
    rw [List.map_append, List.find?_append]
    rw [find?_key_filtered_mapped _ _ _ (by
      intro x
      split <;> rfl)]
    simp

/-- A later hit in a live window: the counter increments, keeping its
expiry (no `expire` call since the value is not 1). -/
theorem rate_limited_next (limits : List (String × Nat × Nat)) (st : KVState)
    (p : String) (t n w c ex : Nat)
    (hnw : (List.lookup p limits).getD (20, 60) = (n, w))
    (hfind : st.rate.find?
      (fun e => e.1 == ("arx:rl:" ++ p ++ ":" ++ toString (t / w))) =
      some ("arx:rl:" ++ p ++ ":" ++ toString (t / w), c, some ex))
    (halive : t < ex) (hc : 1 ≤ c) :
    (_rate_limited limits st p t).1 = decide (c + 1 > n) ∧
    (_rate_limited limits st p t).2.rate.find?
      (fun e => e.1 == ("arx:rl:" ++ p ++ ":" ++ toString (t / w))) =
      some ("arx:rl:" ++ p ++ ":" ++ toString (t / w), c + 1, some ex) := by
  have hincr : incr st ("arx:rl:" ++ p ++ ":" ++ toString (t / w)) t =
      (c + 1, { st with rate := (st.rate.filter
        (fun x => !(x.1 == "arx:rl:" ++ p ++ ":" ++ toString (t / w)))) ++
        [("arx:rl:" ++ p ++ ":" ++ toString (t / w), c + 1, some ex)] }) := by
    unfold incr
    rw [rateAlive_of_find_some st _ t c ex hfind halive]
  have hne : ¬ ((c + 1 == 1) = true) := by
    simp only [beq_iff_eq]
    omega
  unfold _rate_limited
  rw [hnw]
  dsimp only
  rw [hincr]
  dsimp only
  constructor
  · rfl
  · rw [if_neg hne]
    rw [List.find?_append]
    have hrest : (st.rate.filter
        (fun x => !(x.1 == "arx:rl:" ++ p ++ ":" ++ toString (t / w)))).find?
        (fun e => e.1 == "arx:rl:" ++ p ++ ":" ++ toString (t / w)) = none := by
      apply List.find?_eq_none.mpr
      intro x hx
      have hx2 := List.of_mem_filter hx
      simp only [Bool.not_eq_true', beq_eq_false_iff_ne, ne_eq] at hx2
      simp [hx2]
    rw [hrest]
    simp

/-- Fixed-window counting: starting from a store whose counter for window
`W` holds `j` (or is absent when `j = 0`, with `tf` the window's first hit
time), a sequence of calls at times inside window `W` returns, for the
`i`-th call (0-based), exactly `decide (j + i + 1 > n)`. -/
theorem rateOutcomes_fixed_window (limits : List (String × Nat × Nat)) (p : String)
    (n w W : Nat) (hnw : (List.lookup p limits).getD (20, 60) = (n, w)) (hw : 0 < w) :
    ∀ (ts : List Nat) (st : KVState) (j tf : Nat),
    (∀ t ∈ ts, t / w = W) →
    ((j = 0 ∧ st.rate.find?
        (fun e => e.1 == ("arx:rl:" ++ p ++ ":" ++ toString W)) = none) ∨
     (1 ≤ j ∧ tf / w = W ∧ st.rate.find?
        (fun e => e.1 == ("arx:rl:" ++ p ++ ":" ++ toString W)) =
        some ("arx:rl:" ++ p ++ ":" ++ toString W, j, some (tf + w)))) →
    rateOutcomes limits p st ts =
      (List.range ts.length).map (fun i => decide (j + i + 1 > n)) := by
  intro ts
  induction ts with
  | nil => intro st j tf _ _; rfl
  | cons t ts ih =>
    intro st j tf hts hinv
    have htW : t / w = W := hts t (List.mem_cons_self _ _)
    have htail : ∀ t' ∈ ts, t' / w = W := fun t' ht' => hts t' (List.mem_cons_of_mem _ ht')
    rcases hinv with ⟨hj0, hfind⟩ | ⟨hj1, htf, hfind⟩
    · subst hj0
      have h := rate_limited_fresh limits st p t n w hnw (by rw [htW]; exact hfind)
      have htailres := ih (_rate_limited limits st p t).2 1 t htail
        (Or.inr ⟨le_rfl, htW, by rw [← htW]; exact h.2⟩)
      simp only [rateOutcomes]
      rw [h.1, htailres]
      rw [List.length_cons, List.range_succ_eq_map, List.map_cons, List.map_map]
      congr 1
      apply List.map_congr_left
      intro i _
      simp only [Function.comp]
      exact decide_eq_decide.mpr (by omega)
    · have halive : t < tf + w := by
        have h1 := Nat.div_add_mod t w
        have h2 := Nat.mod_lt t hw
        have h3 := Nat.div_add_mod tf w
        rw [htW] at h1
        rw [htf] at h3
        omega
      have h := rate_limited_next limits st p t n w j (tf + w) hnw
        (by rw [htW]; exact hfind) halive hj1
      have htailres := ih (_rate_limited limits st p t).2 (j + 1) tf htail
        (Or.inr ⟨by omega, htf, by rw [← htW]; exact h.2⟩)
      simp only [rateOutcomes]
      rw [h.1, htailres]
      rw [List.length_cons, List.range_succ_eq_map, List.map_cons, List.map_map]
      congr 1
      apply List.map_congr_left
      intro i _
      simp only [Function.comp]
      exact decide_eq_decide.mpr (by omega)

/-- A submission that passes the rate check never defers. -/
theorem execute_step_not_deferred (h12 h16 : String → String)
    (limits : List (String × Nat × Nat)) (aw : Bool) (st : KVState) (t : Nat)
    (flow_id task_id step_id persona exec_mode branch model payload : String)
    (ad b : Bool)
    (hrate : (_rate_limited limits st persona t).1 = false) :
    (execute_step h12 h16 limits aw st t flow_id task_id step_id persona exec_mode branch
        model payload ad b).1 ≠ .deferred := by
  unfold execute_step
  simp only [hrate, Bool.false_eq_true, if_false]
  split
  · simp
  · split
    · simp
    · split
      · simp
      · split <;> simp

/-! ## Claim C3 -/

/-- **C3**: for a persona whose fixed-window rate limit resolves to
`(n, w)`, the `k`-th submission counted by the window-`W` rate counter
(starting from a window with no counter) observes count `k` and is
rate-limited exactly when `k > n`; a rate-limited `execute_step` delivery
is deferred — re-enqueued via `self.retry(countdown=5)`, never dropped,
with no other effect — while a non-limited delivery is never deferred. -/
theorem C3_fixed_window_rate_limit (limits : List (String × Nat × Nat)) (p : String)
    (n w W : Nat) (hnw : (List.lookup p limits).getD (20, 60) = (n, w)) (hw : 0 < w) :
    (∀ (ts : List Nat) (st0 : KVState),
      (∀ t ∈ ts, t / w = W) →
      st0.rate.find? (fun e => e.1 == ("arx:rl:" ++ p ++ ":" ++ toString W)) = none →
      rateOutcomes limits p st0 ts =
        (List.range ts.length).map (fun i => decide (i + 1 > n))) ∧
    (∀ (h12 h16 : String → String) (aw : Bool) (st : KVState) (t : Nat)
       (flow_id task_id step_id exec_mode branch model payload : String) (ad b : Bool),
      ((_rate_limited limits st p t).1 = true →
        execute_step h12 h16 limits aw st t flow_id task_id step_id p exec_mode branch
          model payload ad b = (.deferred, (_rate_limited limits st p t).2, [])) ∧
      ((_rate_limited limits st p t).1 = false →
        (execute_step h12 h16 limits aw st t flow_id task_id step_id p exec_mode branch
          model payload ad b).1 ≠ .deferred)) := by
  constructor
  · intro ts st0 hts hfind
    have h := rateOutcomes_fixed_window limits p n w W hnw hw ts st0 0 0 hts
      (Or.inl ⟨rfl, hfind⟩)
    rw [h]
    apply List.map_congr_left
    intro i _
    exact decide_eq_decide.mpr (by omega)
  · intro h12 h16 aw st t flow_id task_id step_id exec_mode branch model payload ad b
    exact ⟨fun h => execute_step_deferred h12 h16 limits aw st t flow_id task_id step_id p
        exec_mode branch model payload ad b h,
      fun h => execute_step_not_deferred h12 h16 limits aw st t flow_id task_id step_id p
        exec_mode branch model payload ad b h⟩

/-- Witness for `C3_fixed_window_rate_limit` with limit `N = 1`,
`window = 60`: of two submissions at `t = 0` and `t = 30` (same window),
the first is admitted and the second is deferred, not dropped. -/
theorem C3_fixed_window_rate_limit_witness :
    (rateOutcomes [("P", (1, 60))] "P" ⟨[], []⟩ [0, 30] =
      (List.range 2).map (fun i => decide (i + 1 > 1))) ∧
    (execute_step (fun s => s) (fun s => s) [("P", (1, 60))] false
        (_rate_limited [("P", (1, 60))] ⟨[], []⟩ "P" 0).2 30
        "f" "t" "s" "P" "dry_run" "dev" "m" "q" false false =
      (.deferred,
       (_rate_limited [("P", (1, 60))]
         (_rate_limited [("P", (1, 60))] ⟨[], []⟩ "P" 0).2 "P" 30).2, [])) :=
  ⟨(C3_fixed_window_rate_limit [("P", (1, 60))] "P" 1 60 0 rfl (by decide)).1
      [0, 30] ⟨[], []⟩ (by decide) rfl,
   ((C3_fixed_window_rate_limit [("P", (1, 60))] "P" 1 60 0 rfl (by decide)).2
      (fun s => s) (fun s => s) false (_rate_limited [("P", (1, 60))] ⟨[], []⟩ "P" 0).2 30
      "f" "t" "s" "dry_run" "dev" "m" "q" false false).1 (by decide)⟩

/-! ## Claims C6 and C10 -/

/-- **C6**: for every input value (`None`, empty, disallowed characters,
over-long strings included), `_san` returns a string whose characters all
lie in `[A-Za-z0-9_\-./]` with length between 1 and 64; `None` and values
sanitizing to empty become the literal `"unknown"`. -/
theorem C6_sanitizer_bounds :
    (∀ v : Option String,
      (_san v).data.all allowedChar = true ∧
      0 < (_san v).length ∧ (_san v).length ≤ 64) ∧
    _san none = "unknown" ∧ _san (some "") = "unknown" :=
  ⟨fun v => ⟨san_data_all_allowed v, san_length_pos v, san_length_le v⟩,
   rfl, by decide⟩

/-- **C10**: the metric label sanitizer is idempotent — applying `_san` to
an already-sanitized value returns it unchanged. -/
theorem C10_sanitizer_idempotent : ∀ v : Option String, _san (some (_san v)) = _san v := by
  intro v
  apply san_fixed
  · exact san_data_all_allowed v
  · have hpos := san_length_pos v
    intro h
    rw [h] at hpos
    exact absurd hpos (by decide)
  · exact san_length_le v
